import Mathlib

/-!
Shallow embedding of the intent lifecycle engine of the ai-agent-wallet
repository: the Solidity contracts `PolicyEngine`, `AgentRegistry` and
`CrossChainExecutor`.

Modelling conventions.

* `bytes32`, `address`, `uint256` values are modelled as `Nat`; the value `0`
  plays the role of the corresponding zero sentinel (`bytes32(0)`,
  `address(0)`).
* `keccak256(abi.encodePacked(s))` on an action string is modelled as the
  string `s` itself: keccak is collision resistant, so hash equality is string
  equality.  Consequently an intent's `actionHash` field is carried as the
  committed action `String`.
* ECDSA recovery (`ecrecover` inside `verifyIntentSignature`) is abstracted:
  an operation that takes a signature receives instead the recovered signer
  address (`0` models a failed recovery), and the checks the contract performs
  on that address are kept verbatim.
* Each external function of a contract is a Lean function
  `SystemState -> args -> Except EngineError SystemState`.  A Solidity
  `revert` (custom error or failed `require`) is `.error e`.  EVM revert
  semantics roll back every storage write of the transaction, so an `.error`
  result carries no state: the caller's state is the pre-call state.  The
  transaction-level view is `applyOp`, which keeps the old state on `.error`.
-/

/-- Status enum of `CrossChainExecutor` (Pending, Validated, Submitted,
Executed, Disputed, Failed). -/
inductive Status where
  | Pending
  | Validated
  | Submitted
  | Executed
  | Disputed
  | Failed
deriving DecidableEq, Repr

/-- Errors of the three contracts.  Custom Solidity errors keep their names;
a failed `require(cond, "msg")` is `.Require "msg"`. -/
inductive EngineError where
  | IntentAlreadyExists
  | InvalidNonce
  | IntentExpired
  | UnauthorizedRelayer
  | IntentNotFound
  | IntentAlreadyExecuted
  | TimelockNotExpired
  | InvalidSignature
  | SystemPaused
  | AgentIsPaused (agentId : Nat)
  | CircuitBreakerActive
  | UnauthorizedAdmin
  | PolicyViolation (reason : String)
  | AgentAlreadyExists
  | AgentNotFound
  | AgentInactive
  | UnauthorizedCaller
  | InvalidWalletAddress
  | WalletAlreadyBound
  | Require (msg : String)
deriving DecidableEq, Repr

/-- RollingWindow struct of `PolicyEngine`. -/
structure RollingWindow where
  dailySpent : Nat
  dailyWindowStart : Nat
  hourlyTxCount : Nat
  hourlyWindowStart : Nat
deriving DecidableEq, Repr

/-- CircuitBreakerConfig struct of `PolicyEngine`. -/
structure CircuitBreakerConfig where
  suspiciousActivityThreshold : Nat
  cooldownPeriod : Nat
  tripped : Bool
  trippedAt : Nat
deriving DecidableEq, Repr

/-- Agent struct of `AgentRegistry`. -/
structure Agent where
  owner : Nat
  wallet : Nat
  publicKey : String
  metadataCID : String
  active : Bool
  registeredAt : Nat
deriving DecidableEq, Repr

/-- PolicyConfig struct of `AgentRegistry`. -/
structure PolicyConfig where
  maxSpendPerDay : Nat
  maxTxPerHour : Nat
  maxValuePerTx : Nat
  whitelistedAddresses : List Nat
deriving DecidableEq, Repr

/-- IntentData struct of `CrossChainExecutor` (the calldata payload of
`emitIntent`).  `actionHash` carries the committed action string (see the
keccak modelling convention above). -/
structure IntentData where
  intentId : Nat
  agentId : Nat
  srcChainId : Nat
  destChainId : Nat
  actionHash : String
  nonce : Nat
  expiry : Nat
  value : Nat
  recipient : Nat
deriving DecidableEq, Repr

/-- Intent struct of `CrossChainExecutor` (the stored record). -/
structure Intent where
  intentId : Nat
  agentId : Nat
  srcChainId : Nat
  destChainId : Nat
  actionHash : String
  nonce : Nat
  expiry : Nat
  value : Nat
  recipient : Nat
  relayer : Nat
  submittedAt : Nat
  status : Status
deriving DecidableEq, Repr

/-- RelayerInfo struct of `CrossChainExecutor`. -/
structure RelayerInfo where
  relayerAddress : Nat
  stakeAmount : Nat
  reputationScore : Nat
  intentsProcessed : Nat
  successfulExecutions : Nat
  isActive : Bool
  lastActive : Nat
deriving DecidableEq, Repr

/-- Default value of an `Intent` storage slot (all fields zero, status
`Pending`, the first enum member). -/
def defaultIntent : Intent :=
  { intentId := 0, agentId := 0, srcChainId := 0, destChainId := 0
  , actionHash := "", nonce := 0, expiry := 0, value := 0, recipient := 0
  , relayer := 0, submittedAt := 0, status := .Pending }

/-- Default value of an `Agent` storage slot. -/
def defaultAgent : Agent :=
  { owner := 0, wallet := 0, publicKey := "", metadataCID := ""
  , active := false, registeredAt := 0 }

/-- Default value of a `RollingWindow` storage slot. -/
def defaultWindow : RollingWindow :=
  { dailySpent := 0, dailyWindowStart := 0
  , hourlyTxCount := 0, hourlyWindowStart := 0 }

/-- Default value of a `RelayerInfo` storage slot. -/
def defaultRelayerInfo : RelayerInfo :=
  { relayerAddress := 0, stakeAmount := 0, reputationScore := 0
  , intentsProcessed := 0, successfulExecutions := 0, isActive := false
  , lastActive := 0 }

/-- Default value of a `PolicyConfig` storage slot. -/
def defaultPolicyConfig : PolicyConfig :=
  { maxSpendPerDay := 0, maxTxPerHour := 0, maxValuePerTx := 0
  , whitelistedAddresses := [] }

/-- Combined storage of the deployed system: `CrossChainExecutor`,
`AgentRegistry` and `PolicyEngine`.  Solidity mappings are total functions
with the default struct as the default slot value. -/
structure SystemState where
  intents : Nat → Intent
  agentNonces : Nat → Nat
  authorizedRelayers : Nat → Bool
  relayerInfo : Nat → RelayerInfo
  activeRelayers : List Nat
  agents : Nat → Agent
  policies : Nat → PolicyConfig
  walletToAgentId : Nat → Nat
  rollingWindows : Nat → RollingWindow
  circuitBreaker : CircuitBreakerConfig
  paused : Bool
  agentPaused : Nat → Bool
  emergencyAdmin : Nat
  executorAddr : Nat
  agentRegistryAddr : Nat

/-- One day, in seconds (`1 days`). -/
def DAY : Nat := 86400

/-- One hour, in seconds (`1 hours`). -/
def HOUR : Nat := 3600

/-- `CrossChainExecutor.TIMELOCK_DURATION` (60 seconds). -/
def TIMELOCK_DURATION : Nat := 60

/-- `PolicyEngine._checkCircuitBreaker`: trips the breaker if it is not
already tripped.  In `checkPolicy` this write is immediately followed by a
`revert`, which rolls it back (see `checkPolicy`). -/
def checkCircuitBreakerStep (now : Nat) (cb : CircuitBreakerConfig) :
    CircuitBreakerConfig :=
  if ¬ cb.tripped then { cb with tripped := true, trippedAt := now } else cb

/-- The "auto-reset after cooldown" write of `checkPolicy` (it runs exactly
when the breaker is tripped and the cooldown has elapsed; on an untripped
breaker it is the identity, as in the source). -/
def autoResetBreaker (cb : CircuitBreakerConfig) : CircuitBreakerConfig :=
  if cb.tripped then { cb with tripped := false } else cb

/-- The "update daily window if needed" block of `checkPolicy`. -/
def resetDailyWindow (now : Nat) (w : RollingWindow) : RollingWindow :=
  if w.dailyWindowStart + DAY ≤ now then
    { w with dailySpent := 0, dailyWindowStart := now } else w

/-- The "update hourly window if needed" block of `checkPolicy`. -/
def resetHourlyWindow (now : Nat) (w : RollingWindow) : RollingWindow :=
  if w.hourlyWindowStart + HOUR ≤ now then
    { w with hourlyTxCount := 0, hourlyWindowStart := now } else w

/-- `PolicyEngine.checkPolicy`, gate by gate in source order, operating on
the caller-visible pieces of storage it touches: the agent's rolling window
and the global circuit breaker (plus the two pause flags, read only).  An
`.error` result models a `revert`: by EVM semantics every storage write of
the frame — including the window resets and the circuit-breaker writes made
before the revert — is rolled back, so the error carries no state.  In
particular the `_checkCircuitBreaker` trip inside the hourly-cap branch is
undone by the `revert PolicyViolation("Exceeds maxTxPerHour")` that
immediately follows it. -/
def checkPolicy (now : Nat) (sysPaused agentIsPaused : Bool)
    (cb : CircuitBreakerConfig) (w : RollingWindow)
    (agentId value recipient maxSpendPerDay maxTxPerHour maxValuePerTx : Nat)
    (whitelistedAddresses : List Nat) :
    Except EngineError (RollingWindow × CircuitBreakerConfig) :=
  if sysPaused then .error .SystemPaused
  else if agentIsPaused then .error (.AgentIsPaused agentId)
  else if cb.tripped ∧ now < cb.trippedAt + cb.cooldownPeriod then
    .error .CircuitBreakerActive
  else if maxValuePerTx < value then
    .error (.PolicyViolation "Exceeds maxValuePerTx")
  else if maxSpendPerDay < (resetDailyWindow now w).dailySpent + value then
    .error (.PolicyViolation "Exceeds maxSpendPerDay")
  else if maxTxPerHour ≤
      (resetHourlyWindow now (resetDailyWindow now w)).hourlyTxCount then
    -- the frame state here is
    -- `checkCircuitBreakerStep now (autoResetBreaker cb)`, but the revert on
    -- the next line rolls that write back
    .error (.PolicyViolation "Exceeds maxTxPerHour")
  else if whitelistedAddresses ≠ [] ∧
      ¬ whitelistedAddresses.contains recipient then
    .error (.PolicyViolation "Recipient not whitelisted")
  else
    .ok ({ resetHourlyWindow now (resetDailyWindow now w) with
            dailySpent :=
              (resetHourlyWindow now (resetDailyWindow now w)).dailySpent + value
            hourlyTxCount :=
              (resetHourlyWindow now (resetDailyWindow now w)).hourlyTxCount + 1 },
          autoResetBreaker cb)

/-- `AgentRegistry.registerAgent`.  `caller` is `msg.sender`, `now` is
`block.timestamp`. -/
def registerAgent (s : SystemState) (caller now agentId wallet : Nat)
    (publicKey metadataCID : String) (policy : PolicyConfig) :
    Except EngineError SystemState :=
  if (s.agents agentId).wallet ≠ 0 then .error .AgentAlreadyExists
  else if wallet = 0 then .error .InvalidWalletAddress
  else if s.walletToAgentId wallet ≠ 0 then .error .WalletAlreadyBound
  else .ok { s with
    agents := Function.update s.agents agentId
      { owner := caller, wallet := wallet, publicKey := publicKey
      , metadataCID := metadataCID, active := true, registeredAt := now }
    policies := Function.update s.policies agentId policy
    walletToAgentId := Function.update s.walletToAgentId wallet agentId }

/-- `AgentRegistry.updateMetadata` (guarded by the `onlyOwner` modifier). -/
def updateMetadata (s : SystemState) (caller agentId : Nat)
    (newMetadataCID : String) : Except EngineError SystemState :=
  if (s.agents agentId).owner = 0 then .error .AgentNotFound
  else if caller ≠ (s.agents agentId).owner then .error .UnauthorizedCaller
  else .ok { s with
    agents := Function.update s.agents agentId
      { s.agents agentId with metadataCID := newMetadataCID } }

/-- `AgentRegistry.updatePolicy` (guarded by the `onlyOwner` modifier). -/
def updatePolicy (s : SystemState) (caller agentId : Nat)
    (policy : PolicyConfig) : Except EngineError SystemState :=
  if (s.agents agentId).owner = 0 then .error .AgentNotFound
  else if caller ≠ (s.agents agentId).owner then .error .UnauthorizedCaller
  else .ok { s with policies := Function.update s.policies agentId policy }

/-- `AgentRegistry.deactivateAgent` (guarded by the `onlyOwner` modifier). -/
def deactivateAgent (s : SystemState) (caller agentId : Nat) :
    Except EngineError SystemState :=
  if (s.agents agentId).owner = 0 then .error .AgentNotFound
  else if caller ≠ (s.agents agentId).owner then .error .UnauthorizedCaller
  else .ok { s with
    agents := Function.update s.agents agentId
      { s.agents agentId with active := false } }

/-- `AgentRegistry.reactivateAgent` (guarded by the `onlyOwner` modifier). -/
def reactivateAgent (s : SystemState) (caller agentId : Nat) :
    Except EngineError SystemState :=
  if (s.agents agentId).owner = 0 then .error .AgentNotFound
  else if caller ≠ (s.agents agentId).owner then .error .UnauthorizedCaller
  else .ok { s with
    agents := Function.update s.agents agentId
      { s.agents agentId with active := true } }

/-- `PolicyEngine.pause`. -/
def pauseSystem (s : SystemState) (caller : Nat) :
    Except EngineError SystemState :=
  if caller ≠ s.emergencyAdmin then .error .UnauthorizedAdmin
  else .ok { s with paused := true }

/-- `PolicyEngine.unpause`. -/
def unpauseSystem (s : SystemState) (caller : Nat) :
    Except EngineError SystemState :=
  if caller ≠ s.emergencyAdmin then .error .UnauthorizedAdmin
  else .ok { s with paused := false }

/-- `PolicyEngine.pauseAgent`. -/
def pauseAgentOp (s : SystemState) (caller agentId : Nat) :
    Except EngineError SystemState :=
  if caller ≠ s.emergencyAdmin then .error .UnauthorizedAdmin
  else .ok { s with agentPaused := Function.update s.agentPaused agentId true }

/-- `PolicyEngine.unpauseAgent`. -/
def unpauseAgentOp (s : SystemState) (caller agentId : Nat) :
    Except EngineError SystemState :=
  if caller ≠ s.emergencyAdmin then .error .UnauthorizedAdmin
  else .ok { s with agentPaused := Function.update s.agentPaused agentId false }

/-- A direct external call to `PolicyEngine.checkPolicy` (the function is
`external` and unguarded), written at the storage level: on approval the
caller's rolling window and the circuit breaker are updated, on revert the
transaction leaves no trace. -/
def checkPolicyCall (s : SystemState)
    (now agentId value recipient maxSpendPerDay maxTxPerHour maxValuePerTx : Nat)
    (whitelistedAddresses : List Nat) : Except EngineError SystemState :=
  match checkPolicy now s.paused (s.agentPaused agentId) s.circuitBreaker
      (s.rollingWindows agentId) agentId value recipient maxSpendPerDay
      maxTxPerHour maxValuePerTx whitelistedAddresses with
  | .error e => .error e
  | .ok (w, cb) => .ok { s with
      rollingWindows := Function.update s.rollingWindows agentId w
      circuitBreaker := cb }

/-- Hardcoded daily limit passed by `CrossChainExecutor.emitIntent`
(1 ether). -/
def emitDailyLimit : Nat := 1000000000000000000

/-- Hardcoded hourly transaction limit passed by
`CrossChainExecutor.emitIntent`. -/
def emitHourlyLimit : Nat := 10

/-- Hardcoded per-transaction limit passed by
`CrossChainExecutor.emitIntent` (0.1 ether). -/
def emitPerTxLimit : Nat := 100000000000000000

/-- `CrossChainExecutor.emitIntent`.  `signer` is the address recovered by
`verifyIntentSignature` from the EIP-712 signature (`0` models a failed
recovery; the `require(signer != address(0), "Invalid signature")` inside
`verifyIntentSignature` is kept).  The registry calls `isAgentActive` and
`getAgent` are inlined reads of the registry storage, and the policy check is
the `checkPolicy` call with the hardcoded limits and empty whitelist; its
revert bubbles up unchanged. -/
def emitIntent (s : SystemState) (now : Nat) (d : IntentData) (signer : Nat) :
    Except EngineError SystemState :=
  if (s.intents d.intentId).intentId ≠ 0 then .error .IntentAlreadyExists
  else if d.expiry < now then .error .IntentExpired
  else if d.nonce ≠ s.agentNonces d.agentId then .error .InvalidNonce
  else if signer = 0 then .error (.Require "Invalid signature")
  else if ¬ (s.agents d.agentId).active then .error (.Require "Agent not active")
  else if (s.agents d.agentId).wallet = 0 then .error .AgentNotFound
  else if signer ≠ (s.agents d.agentId).wallet then
    .error (.Require "Invalid agent signature")
  else
    match checkPolicy now s.paused (s.agentPaused d.agentId) s.circuitBreaker
        (s.rollingWindows d.agentId) d.agentId d.value d.recipient
        emitDailyLimit emitHourlyLimit emitPerTxLimit [] with
    | .error e => .error e
    | .ok (w, cb) => .ok { s with
        rollingWindows := Function.update s.rollingWindows d.agentId w
        circuitBreaker := cb
        intents := Function.update s.intents d.intentId
          { intentId := d.intentId, agentId := d.agentId
          , srcChainId := d.srcChainId, destChainId := d.destChainId
          , actionHash := d.actionHash, nonce := d.nonce, expiry := d.expiry
          , value := d.value, recipient := d.recipient, relayer := 0
          , submittedAt := 0, status := .Pending }
        agentNonces := Function.update s.agentNonces d.agentId
          (s.agentNonces d.agentId + 1) }

/-- `CrossChainExecutor.submitIntent`. -/
def submitIntent (s : SystemState) (caller now intentId : Nat) :
    Except EngineError SystemState :=
  if ¬ s.authorizedRelayers caller then .error .UnauthorizedRelayer
  else if (s.intents intentId).intentId = 0 then .error .IntentNotFound
  else if (s.intents intentId).status ≠ .Pending then
    .error .IntentAlreadyExecuted
  else .ok { s with
    intents := Function.update s.intents intentId
      { s.intents intentId with
          relayer := caller, submittedAt := now, status := .Submitted } }

/-- `CrossChainExecutor.executeIntent`.  The `executionData` bytes decode to
`(action, targetAddress, amount, data)`; the trailing `data` is never read,
so it is dropped.  `keccak256(abi.encodePacked(action))` comparisons are
string comparisons under the hash model. -/
def executeIntent (s : SystemState) (caller now intentId : Nat)
    (action : String) (targetAddress amount : Nat) :
    Except EngineError SystemState :=
  if (s.intents intentId).intentId = 0 then .error .IntentNotFound
  else if (s.intents intentId).status ≠ .Submitted then
    .error .IntentAlreadyExecuted
  else if now < (s.intents intentId).submittedAt + TIMELOCK_DURATION then
    .error .TimelockNotExpired
  else if action ≠ (s.intents intentId).actionHash then
    .error (.Require "Action mismatch")
  else if targetAddress ≠ (s.intents intentId).recipient then
    .error (.Require "Recipient mismatch")
  else if amount ≠ (s.intents intentId).value then
    .error (.Require "Amount mismatch")
  else if action = "transfer" ∨ action = "call" then
    .ok { s with
      intents := Function.update s.intents intentId
        { s.intents intentId with status := .Executed } }
  else .error (.Require "Unsupported action")

/-- `CrossChainExecutor.disputeIntent`.  The source checks only that the
intent exists; it does not inspect the current status and does not inspect
`reason`. -/
def disputeIntent (s : SystemState) (caller intentId : Nat)
    (reason : String) : Except EngineError SystemState :=
  if (s.intents intentId).intentId = 0 then .error .IntentNotFound
  else .ok { s with
    intents := Function.update s.intents intentId
      { s.intents intentId with status := .Disputed } }

/-- `CrossChainExecutor.authorizeRelayer` (`owner()` is the stored
`agentRegistry` address). -/
def authorizeRelayer (s : SystemState) (caller relayer : Nat) :
    Except EngineError SystemState :=
  if caller ≠ s.agentRegistryAddr then
    .error (.Require "Only owner can authorize relayers")
  else if relayer = 0 then .error (.Require "Invalid relayer address")
  else .ok { s with
    authorizedRelayers := Function.update s.authorizedRelayers relayer true }

/-- `CrossChainExecutor.revokeRelayer`. -/
def revokeRelayer (s : SystemState) (caller relayer : Nat) :
    Except EngineError SystemState :=
  if caller ≠ s.agentRegistryAddr then
    .error (.Require "Only owner can revoke relayers")
  else .ok { s with
    authorizedRelayers := Function.update s.authorizedRelayers relayer false }

/-- `CrossChainExecutor.registerRelayer`.  `msgValue` is `msg.value`; the
staked ether itself is not tracked beyond `stakeAmount`. -/
def registerRelayer (s : SystemState) (caller msgValue stakeAmount now : Nat) :
    Except EngineError SystemState :=
  if stakeAmount < 100000000000000000 then
    .error (.Require "Minimum stake is 0.1 ETH")
  else if msgValue < stakeAmount then
    .error (.Require "Insufficient stake amount")
  else if (s.relayerInfo caller).isActive then
    .error (.Require "Already registered")
  else .ok { s with
    relayerInfo := Function.update s.relayerInfo caller
      { relayerAddress := caller, stakeAmount := stakeAmount
      , reputationScore := 100, intentsProcessed := 0
      , successfulExecutions := 0, isActive := true, lastActive := now }
    activeRelayers := s.activeRelayers ++ [caller] }

/-- Swap-remove of the first occurrence of `x`, as in the removal loop of
`unregisterRelayer`: the first matching slot is overwritten with the last
element and the last element is popped. -/
def swapRemoveFirst (l : List Nat) (x : Nat) : List Nat :=
  if l.contains x then (l.set (l.indexOf x) (l.getLastD 0)).dropLast else l

/-- `CrossChainExecutor.unregisterRelayer`. -/
def unregisterRelayer (s : SystemState) (caller : Nat) :
    Except EngineError SystemState :=
  if ¬ (s.relayerInfo caller).isActive then .error (.Require "Not registered")
  else .ok { s with
    activeRelayers := swapRemoveFirst s.activeRelayers caller
    relayerInfo := Function.update s.relayerInfo caller
      { s.relayerInfo caller with isActive := false, stakeAmount := 0 } }

/-- Body of `updateRelayerReputation` acting on one `RelayerInfo` record:
increment the processed count; on success also increment the success count
and raise the reputation by 1 when it is below 200; on failure lower the
reputation by 5 when it is above 10; stamp `lastActive`. -/
def updatedReputation (info : RelayerInfo) (success : Bool) (now : Nat) :
    RelayerInfo :=
  let info := { info with intentsProcessed := info.intentsProcessed + 1 }
  let info :=
    if success then
      let info := { info with
        successfulExecutions := info.successfulExecutions + 1 }
      if info.reputationScore < 200 then
        { info with reputationScore := info.reputationScore + 1 }
      else info
    else
      if 10 < info.reputationScore then
        { info with reputationScore := info.reputationScore - 5 }
      else info
  { info with lastActive := now }

/-- `CrossChainExecutor.updateRelayerReputation`.  `caller` must be the
executor itself or an authorized relayer. -/
def updateRelayerReputation (s : SystemState) (caller relayer : Nat)
    (success : Bool) (now : Nat) : Except EngineError SystemState :=
  if ¬ (caller = s.executorAddr ∨ s.authorizedRelayers caller) then
    .error (.Require "Unauthorized")
  else if ¬ (s.relayerInfo relayer).isActive then
    .error (.Require "Relayer not active")
  else .ok { s with
    relayerInfo := Function.update s.relayerInfo relayer
      (updatedReputation (s.relayerInfo relayer) success now) }

/-- Score of one relayer inside `selectRelayer`: reputation, plus 10 if last
active within the hour, scaled by the success rate when it is below 80% and
at least one intent was processed.  (`block.timestamp - info.lastActive` is
truncated subtraction; with monotone timestamps `lastActive ≤ now` always
holds.) -/
def relayerScore (now : Nat) (info : RelayerInfo) : Nat :=
  let score := info.reputationScore
  let score := if now - info.lastActive < HOUR then score + 10 else score
  if 0 < info.intentsProcessed then
    let successRate := info.successfulExecutions * 100 / info.intentsProcessed
    if successRate < 80 then score * successRate / 100 else score
  else score

/-- Loop body of `selectRelayer`: fold over `activeRelayers` keeping the best
`(score, relayer)` pair, strict improvement only. -/
def selectStep (s : SystemState) (now : Nat) (best : Nat × Nat) (r : Nat) :
    Nat × Nat :=
  if (s.relayerInfo r).isActive then
    if best.1 < relayerScore now (s.relayerInfo r) then
      (relayerScore now (s.relayerInfo r), r)
    else best
  else best

/-- `CrossChainExecutor.selectRelayer` (a view function; it returns the
chosen relayer address and never mutates state). -/
def selectRelayer (s : SystemState) (now : Nat) : Except EngineError Nat :=
  if s.activeRelayers.length = 0 then .error (.Require "No active relayers")
  else if (s.activeRelayers.foldl (selectStep s now) (0, 0)).2 = 0 then
    .error (.Require "No suitable relayer found")
  else .ok (s.activeRelayers.foldl (selectStep s now) (0, 0)).2

/-- One external transaction against the system: every state-mutating entry
point of the three contracts, with its `msg.sender` / `block.timestamp` /
argument data. -/
inductive Op where
  | regAgent (caller now agentId wallet : Nat) (publicKey metadataCID : String)
      (policy : PolicyConfig)
  | updMeta (caller agentId : Nat) (cid : String)
  | updPol (caller agentId : Nat) (policy : PolicyConfig)
  | deact (caller agentId : Nat)
  | react (caller agentId : Nat)
  | pauseAll (caller : Nat)
  | unpauseAll (caller : Nat)
  | pauseAg (caller agentId : Nat)
  | unpauseAg (caller agentId : Nat)
  | chkPolicy (now agentId value recipient maxSpendPerDay maxTxPerHour
      maxValuePerTx : Nat) (whitelistedAddresses : List Nat)
  | emit (now : Nat) (d : IntentData) (signer : Nat)
  | submit (caller now intentId : Nat)
  | exec (caller now intentId : Nat) (action : String) (targetAddress amount : Nat)
  | dispute (caller intentId : Nat) (reason : String)
  | authRel (caller relayer : Nat)
  | revokeRel (caller relayer : Nat)
  | regRel (caller msgValue stakeAmount now : Nat)
  | unregRel (caller : Nat)
  | updRep (caller relayer : Nat) (success : Bool) (now : Nat)

/-- Dispatch an operation to the corresponding contract function; the result
is the revert-or-new-state view of the transaction. -/
def applyOpE (s : SystemState) : Op → Except EngineError SystemState
  | .regAgent caller now agentId wallet pk cid pol =>
      registerAgent s caller now agentId wallet pk cid pol
  | .updMeta caller agentId cid => updateMetadata s caller agentId cid
  | .updPol caller agentId pol => updatePolicy s caller agentId pol
  | .deact caller agentId => deactivateAgent s caller agentId
  | .react caller agentId => reactivateAgent s caller agentId
  | .pauseAll caller => pauseSystem s caller
  | .unpauseAll caller => unpauseSystem s caller
  | .pauseAg caller agentId => pauseAgentOp s caller agentId
  | .unpauseAg caller agentId => unpauseAgentOp s caller agentId
  | .chkPolicy now agentId value recipient mD mH mT wl =>
      checkPolicyCall s now agentId value recipient mD mH mT wl
  | .emit now d signer => emitIntent s now d signer
  | .submit caller now intentId => submitIntent s caller now intentId
  | .exec caller now intentId action target amount =>
      executeIntent s caller now intentId action target amount
  | .dispute caller intentId reason => disputeIntent s caller intentId reason
  | .authRel caller relayer => authorizeRelayer s caller relayer
  | .revokeRel caller relayer => revokeRelayer s caller relayer
  | .regRel caller msgValue stake now => registerRelayer s caller msgValue stake now
  | .unregRel caller => unregisterRelayer s caller
  | .updRep caller relayer success now =>
      updateRelayerReputation s caller relayer success now

/-- Post-state of a transaction: a reverted transaction leaves the storage
exactly as it was. -/
def applyOp (s : SystemState) (op : Op) : SystemState :=
  match applyOpE s op with
  | .error _ => s
  | .ok s' => s'

/-- Run a sequence of transactions. -/
def runOps (s : SystemState) (ops : List Op) : SystemState :=
  ops.foldl applyOp s

/-- Storage of a fresh deployment: every mapping at its default value, the
circuit breaker as initialized by the `PolicyEngine` constructor (threshold
10, cooldown one hour, untripped).  The deployer (emergency admin), the
executor's own address and the registry address are arbitrary distinct
nonzero constants. -/
def initialSystemState : SystemState :=
  { intents := fun _ => defaultIntent
  , agentNonces := fun _ => 0
  , authorizedRelayers := fun _ => false
  , relayerInfo := fun _ => defaultRelayerInfo
  , activeRelayers := []
  , agents := fun _ => defaultAgent
  , policies := fun _ => defaultPolicyConfig
  , walletToAgentId := fun _ => 0
  , rollingWindows := fun _ => defaultWindow
  , circuitBreaker :=
      { suspiciousActivityThreshold := 10, cooldownPeriod := HOUR
      , tripped := false, trippedAt := 0 }
  , paused := false
  , agentPaused := fun _ => false
  , emergencyAdmin := 900
  , executorAddr := 901
  , agentRegistryAddr := 902 }

/-- Nonces accepted by the successful `emitIntent` transactions for agent `a`
along a run, in order. -/
def acceptedNonces (s : SystemState) : List Op → Nat → List Nat
  | [], _ => []
  | op :: rest, a =>
      let tail := acceptedNonces (applyOp s op) rest a
      match op with
      | .emit now d signer =>
          if d.agentId = a ∧ (emitIntent s now d signer).isOk then
            d.nonce :: tail
          else tail
      | _ => tail

/-- Registration transaction for agent id 1, owner 1, signing wallet 7. -/
def opRegAgent1 : Op := .regAgent 1 0 1 7 "pk" "cid" defaultPolicyConfig

/-- State after registering agent 1. -/
def stateA : SystemState := applyOp initialSystemState opRegAgent1

/-- A transfer intent of agent 1, id 5, nonce 0. -/
def intentD5 : IntentData :=
  { intentId := 5, agentId := 1, srcChainId := 1, destChainId := 2
  , actionHash := "transfer", nonce := 0, expiry := 100, value := 0
  , recipient := 9 }

/-- State after emitting intent 5 (Pending). -/
def stateB : SystemState := applyOp stateA (.emit 10 intentD5 7)

/-- State after the owner authorizes relayer 4. -/
def stateC : SystemState := applyOp stateB (.authRel 902 4)

/-- State after relayer 4 submits intent 5 at time 100 (Submitted). -/
def stateD : SystemState := applyOp stateC (.submit 4 100 5)

/-- An intent of agent 1 with the unsupported action "mint", id 6, nonce 1. -/
def intentD6 : IntentData :=
  { intentId := 6, agentId := 1, srcChainId := 1, destChainId := 2
  , actionHash := "mint", nonce := 1, expiry := 1000, value := 0
  , recipient := 9 }

/-- State after emitting intent 6 (Pending). -/
def stateE : SystemState := applyOp stateD (.emit 20 intentD6 7)

/-- State after relayer 4 submits intent 6 at time 100 (Submitted). -/
def stateF : SystemState := applyOp stateE (.submit 4 100 6)

/-- A transfer intent of agent 1 with the ZERO intent id, nonce 0. -/
def intentZ0 : IntentData :=
  { intentId := 0, agentId := 1, srcChainId := 1, destChainId := 2
  , actionHash := "transfer", nonce := 0, expiry := 100, value := 0
  , recipient := 9 }

/-- The same zero-id intent resubmitted with the advanced nonce 1. -/
def intentZ1 : IntentData :=
  { intentId := 0, agentId := 1, srcChainId := 1, destChainId := 2
  , actionHash := "transfer", nonce := 1, expiry := 100, value := 0
  , recipient := 9 }

/-- State after emitting the zero-id intent. -/
def stateZ1 : SystemState := applyOp stateA (.emit 10 intentZ0 7)

/-- State after emitting the zero-id intent a second time. -/
def stateZ2 : SystemState := applyOp stateZ1 (.emit 11 intentZ1 7)

/-- Registration transaction that uses the ZERO agent id with wallet 77. -/
def opRegAgentZero : Op := .regAgent 1 0 0 77 "pk" "cid" defaultPolicyConfig

/-- State after registering the zero-id agent. -/
def stateW1 : SystemState := applyOp initialSystemState opRegAgentZero

/-- Registration transaction that reuses wallet 77 for agent id 9. -/
def opRegAgent9 : Op := .regAgent 2 0 9 77 "pk" "cid" defaultPolicyConfig

/-- State after wallet 77 has been bound a second time. -/
def stateW2 : SystemState := applyOp stateW1 opRegAgent9

/-- A direct policy-check transaction for agent 1 with maxTxPerHour 3. -/
def chkOp (now : Nat) : Op := .chkPolicy now 1 1 2 1000 3 100 []

/-- State after three approved policy checks (hourly count 3). -/
def statePol3 : SystemState :=
  runOps initialSystemState [chkOp 10, chkOp 11, chkOp 12]

/-- Relayer 5 registers with the minimum stake. -/
def opRegRelayer5 : Op :=
  .regRel 5 100000000000000000 100000000000000000 0

/-- State after relayer 5 suffers 18 failure updates: reputation 10. -/
def stateRep10 : SystemState :=
  runOps initialSystemState
    (opRegRelayer5 :: List.replicate 18 (.updRep 901 5 false 0))

/-- State after one success update on top: reputation 11. -/
def stateRep11 : SystemState := applyOp stateRep10 (.updRep 901 5 true 0)

/-- State with a single active relayer whose success rate is 0%. -/
def stateSel : SystemState :=
  runOps initialSystemState [opRegRelayer5, .updRep 901 5 false 0]

/-- State after one further failure update from reputation 11: the score
drops to 6, below the 10 floor. -/
def stateRep12 : SystemState := applyOp stateRep11 (.updRep 901 5 false 2)

/-- State with a single freshly registered relayer (score 110, positive). -/
def stateSelGood : SystemState := runOps initialSystemState [opRegRelayer5]

/-- Successful `registerAgent` transactions: the three guards held and the
three registry mappings were written. -/
theorem registerAgent_ok_shape {s : SystemState} {caller now agentId wallet : Nat}
    {pk cid : String} {pol : PolicyConfig} {s' : SystemState}
    (h : registerAgent s caller now agentId wallet pk cid pol = .ok s') :
    (s.agents agentId).wallet = 0 ∧ wallet ≠ 0 ∧
    s.walletToAgentId wallet = 0 ∧
    s' = { s with agents := Function.update s.agents agentId { owner := caller, wallet := wallet, publicKey := pk, metadataCID := cid, active := true, registeredAt := now }, policies := Function.update s.policies agentId pol, walletToAgentId := Function.update s.walletToAgentId wallet agentId } := by
  unfold registerAgent at h
  split_ifs at h
  simp at h
  simp_all [← h]

/-- Successful `updateMetadata` transactions change only the stored
`metadataCID`. -/
theorem updateMetadata_ok_shape {s : SystemState} {caller agentId : Nat}
    {cid : String} {s' : SystemState}
    (h : updateMetadata s caller agentId cid = .ok s') :
    s' = { s with agents := Function.update s.agents agentId { s.agents agentId with metadataCID := cid } } := by
  unfold updateMetadata at h
  split_ifs at h
  simp at h
  exact h.symm

/-- Successful `updatePolicy` transactions change only the policy table. -/
theorem updatePolicy_ok_shape {s : SystemState} {caller agentId : Nat}
    {pol : PolicyConfig} {s' : SystemState}
    (h : updatePolicy s caller agentId pol = .ok s') :
    s' = { s with policies := Function.update s.policies agentId pol } := by
  unfold updatePolicy at h
  split_ifs at h
  simp at h
  exact h.symm

/-- Successful `deactivateAgent` transactions change only the active flag. -/
theorem deactivateAgent_ok_shape {s : SystemState} {caller agentId : Nat}
    {s' : SystemState} (h : deactivateAgent s caller agentId = .ok s') :
    s' = { s with agents := Function.update s.agents agentId { s.agents agentId with active := false } } := by
  unfold deactivateAgent at h
  split_ifs at h
  simp at h
  exact h.symm

/-- Successful `reactivateAgent` transactions change only the active flag. -/
theorem reactivateAgent_ok_shape {s : SystemState} {caller agentId : Nat}
    {s' : SystemState} (h : reactivateAgent s caller agentId = .ok s') :
    s' = { s with agents := Function.update s.agents agentId { s.agents agentId with active := true } } := by
  unfold reactivateAgent at h
  split_ifs at h
  simp at h
  exact h.symm

/-- Successful `pause` transactions set only the pause flag. -/
theorem pauseSystem_ok_shape {s : SystemState} {caller : Nat} {s' : SystemState}
    (h : pauseSystem s caller = .ok s') : s' = { s with paused := true } := by
  unfold pauseSystem at h
  split_ifs at h
  simp at h
  exact h.symm

/-- Successful `unpause` transactions clear only the pause flag. -/
theorem unpauseSystem_ok_shape {s : SystemState} {caller : Nat} {s' : SystemState}
    (h : unpauseSystem s caller = .ok s') : s' = { s with paused := false } := by
  unfold unpauseSystem at h
  split_ifs at h
  simp at h
  exact h.symm

/-- Successful `pauseAgent` transactions set only the per-agent pause flag. -/
theorem pauseAgentOp_ok_shape {s : SystemState} {caller agentId : Nat}
    {s' : SystemState} (h : pauseAgentOp s caller agentId = .ok s') :
    s' = { s with agentPaused := Function.update s.agentPaused agentId true } := by
  unfold pauseAgentOp at h
  split_ifs at h
  simp at h
  exact h.symm

/-- Successful `unpauseAgent` transactions clear only the per-agent pause
flag. -/
theorem unpauseAgentOp_ok_shape {s : SystemState} {caller agentId : Nat}
    {s' : SystemState} (h : unpauseAgentOp s caller agentId = .ok s') :
    s' = { s with agentPaused := Function.update s.agentPaused agentId false } := by
  unfold unpauseAgentOp at h
  split_ifs at h
  simp at h
  exact h.symm

/-- Successful direct `checkPolicy` transactions write the caller's rolling
window and the circuit breaker as returned by `checkPolicy`. -/
theorem checkPolicyCall_ok_shape {s : SystemState}
    {now agentId value recipient mD mH mT : Nat} {wl : List Nat}
    {s' : SystemState}
    (h : checkPolicyCall s now agentId value recipient mD mH mT wl = .ok s') :
    ∃ w cb, checkPolicy now s.paused (s.agentPaused agentId) s.circuitBreaker
        (s.rollingWindows agentId) agentId value recipient mD mH mT wl =
        .ok (w, cb) ∧
      s' = { s with rollingWindows := Function.update s.rollingWindows agentId w, circuitBreaker := cb } := by
  unfold checkPolicyCall at h
  rcases hcp : checkPolicy now s.paused (s.agentPaused agentId) s.circuitBreaker
      (s.rollingWindows agentId) agentId value recipient mD mH mT wl
    with e | ⟨w, cb⟩
  · rw [hcp] at h
    simp at h
  · rw [hcp] at h
    simp at h
    exact ⟨w, cb, rfl, h.symm⟩

/-- Successful `emitIntent` transactions: all guards held (in particular the
supplied nonce equals the stored nonce), the policy check approved, the
intent was stored as Pending and the agent nonce advanced by exactly 1. -/
theorem emitIntent_ok_shape {s : SystemState} {now : Nat} {d : IntentData}
    {signer : Nat} {s' : SystemState}
    (h : emitIntent s now d signer = .ok s') :
    (s.intents d.intentId).intentId = 0 ∧ now ≤ d.expiry ∧
    d.nonce = s.agentNonces d.agentId ∧ signer ≠ 0 ∧
    (s.agents d.agentId).active = true ∧
    signer = (s.agents d.agentId).wallet ∧
    ∃ w cb, checkPolicy now s.paused (s.agentPaused d.agentId) s.circuitBreaker
        (s.rollingWindows d.agentId) d.agentId d.value d.recipient
        emitDailyLimit emitHourlyLimit emitPerTxLimit [] = .ok (w, cb) ∧
      s' = { s with rollingWindows := Function.update s.rollingWindows d.agentId w, circuitBreaker := cb, intents := Function.update s.intents d.intentId { intentId := d.intentId, agentId := d.agentId, srcChainId := d.srcChainId, destChainId := d.destChainId, actionHash := d.actionHash, nonce := d.nonce, expiry := d.expiry, value := d.value, recipient := d.recipient, relayer := 0, submittedAt := 0, status := .Pending }, agentNonces := Function.update s.agentNonces d.agentId (s.agentNonces d.agentId + 1) } := by
  unfold emitIntent at h
  split_ifs at h with h1 h2 h3 h4 h5 h6 h7
  rcases hcp : checkPolicy now s.paused (s.agentPaused d.agentId)
      s.circuitBreaker (s.rollingWindows d.agentId) d.agentId d.value
      d.recipient emitDailyLimit emitHourlyLimit emitPerTxLimit []
    with e | ⟨w, cb⟩
  · rw [hcp] at h
    simp at h
  · rw [hcp] at h
    simp only [Except.ok.injEq] at h
    refine ⟨by simpa using h1, by omega, not_not.mp h3, h4, by simpa using h5,
      not_not.mp h7, w, cb, rfl, ?_⟩
    rw [← h]

/-- Successful `submitIntent` transactions: the caller was an authorized
relayer, the intent existed in Pending status, and it moved to Submitted
with the relayer and timestamp recorded. -/
theorem submitIntent_ok_shape {s : SystemState} {caller now intentId : Nat}
    {s' : SystemState} (h : submitIntent s caller now intentId = .ok s') :
    s.authorizedRelayers caller = true ∧
    (s.intents intentId).intentId ≠ 0 ∧
    (s.intents intentId).status = .Pending ∧
    s' = { s with intents := Function.update s.intents intentId { s.intents intentId with relayer := caller, submittedAt := now, status := .Submitted } } := by
  unfold submitIntent at h
  split_ifs at h with h1 h2 h3
  simp at h
  simp_all [← h]

/-- Successful `executeIntent` transactions: the intent existed in Submitted
status, the timelock had expired, the payload matched the committed intent,
the action was `transfer` or `call`, and the status moved to Executed. -/
theorem executeIntent_ok_shape {s : SystemState} {caller now intentId : Nat}
    {action : String} {target amount : Nat} {s' : SystemState}
    (h : executeIntent s caller now intentId action target amount = .ok s') :
    (s.intents intentId).intentId ≠ 0 ∧
    (s.intents intentId).status = .Submitted ∧
    (s.intents intentId).submittedAt + TIMELOCK_DURATION ≤ now ∧
    action = (s.intents intentId).actionHash ∧
    target = (s.intents intentId).recipient ∧
    amount = (s.intents intentId).value ∧
    (action = "transfer" ∨ action = "call") ∧
    s' = { s with intents := Function.update s.intents intentId { s.intents intentId with status := .Executed } } := by
  unfold executeIntent at h
  split_ifs at h with h1 h2 h3 h4 h5 h6 h7
  simp at h
  refine ⟨h1, by simpa using h2, by omega, not_not.mp h4, not_not.mp h5,
    not_not.mp h6, h7, h.symm⟩

/-- Successful `disputeIntent` transactions: the intent existed (no other
condition is checked) and the status moved to Disputed. -/
theorem disputeIntent_ok_shape {s : SystemState} {caller intentId : Nat}
    {reason : String} {s' : SystemState}
    (h : disputeIntent s caller intentId reason = .ok s') :
    (s.intents intentId).intentId ≠ 0 ∧
    s' = { s with intents := Function.update s.intents intentId { s.intents intentId with status := .Disputed } } := by
  unfold disputeIntent at h
  split_ifs at h with h1
  simp at h
  exact ⟨h1, h.symm⟩

/-- Successful `authorizeRelayer` transactions set only the authorization
flag. -/
theorem authorizeRelayer_ok_shape {s : SystemState} {caller relayer : Nat}
    {s' : SystemState} (h : authorizeRelayer s caller relayer = .ok s') :
    s' = { s with authorizedRelayers := Function.update s.authorizedRelayers relayer true } := by
  unfold authorizeRelayer at h
  split_ifs at h
  simp at h
  exact h.symm

/-- Successful `revokeRelayer` transactions clear only the authorization
flag. -/
theorem revokeRelayer_ok_shape {s : SystemState} {caller relayer : Nat}
    {s' : SystemState} (h : revokeRelayer s caller relayer = .ok s') :
    s' = { s with authorizedRelayers := Function.update s.authorizedRelayers relayer false } := by
  unfold revokeRelayer at h
  split_ifs at h
  simp at h
  exact h.symm

/-- Successful `registerRelayer` transactions create the relayer record at
neutral reputation 100 and append the caller to the active list. -/
theorem registerRelayer_ok_shape {s : SystemState}
    {caller msgValue stake now : Nat} {s' : SystemState}
    (h : registerRelayer s caller msgValue stake now = .ok s') :
    (s.relayerInfo caller).isActive = false ∧
    s' = { s with relayerInfo := Function.update s.relayerInfo caller { relayerAddress := caller, stakeAmount := stake, reputationScore := 100, intentsProcessed := 0, successfulExecutions := 0, isActive := true, lastActive := now }, activeRelayers := s.activeRelayers ++ [caller] } := by
  unfold registerRelayer at h
  split_ifs at h with h1 h2 h3
  simp at h
  simp_all [← h]

/-- Successful `unregisterRelayer` transactions swap-remove the caller from
the active list and clear its record's active flag and stake. -/
theorem unregisterRelayer_ok_shape {s : SystemState} {caller : Nat}
    {s' : SystemState} (h : unregisterRelayer s caller = .ok s') :
    s' = { s with activeRelayers := swapRemoveFirst s.activeRelayers caller, relayerInfo := Function.update s.relayerInfo caller { s.relayerInfo caller with isActive := false, stakeAmount := 0 } } := by
  unfold unregisterRelayer at h
  split_ifs at h
  simp at h
  exact h.symm

/-- Successful `updateRelayerReputation` transactions rewrite exactly the
target relayer's record through `updatedReputation`. -/
theorem updateRelayerReputation_ok_shape {s : SystemState}
    {caller relayer : Nat} {success : Bool} {now : Nat} {s' : SystemState}
    (h : updateRelayerReputation s caller relayer success now = .ok s') :
    (s.relayerInfo relayer).isActive = true ∧
    s' = { s with relayerInfo := Function.update s.relayerInfo relayer (updatedReputation (s.relayerInfo relayer) success now) } := by
  unfold updateRelayerReputation at h
  split_ifs at h with h1 h2
  simp at h
  simp_all [← h]

/-- The auto-reset helper always leaves the breaker untripped. -/
theorem autoResetBreaker_tripped (cb : CircuitBreakerConfig) :
    (autoResetBreaker cb).tripped = false := by
  unfold autoResetBreaker
  split <;> simp_all

/-- An approved `checkPolicy` always returns the breaker untripped: either it
was untripped already, or the cooldown had elapsed and it was auto-reset. -/
theorem checkPolicy_ok_tripped {now : Nat} {sp ap : Bool}
    {cb : CircuitBreakerConfig} {w : RollingWindow}
    {agentId value recipient mD mH mT : Nat} {wl : List Nat}
    {w' : RollingWindow} {cb' : CircuitBreakerConfig}
    (h : checkPolicy now sp ap cb w agentId value recipient mD mH mT wl =
      .ok (w', cb')) : cb'.tripped = false := by
  unfold checkPolicy at h
  split_ifs at h <;> simp at h
  rw [← h.2]
  exact autoResetBreaker_tripped cb

/-- Every `checkPolicy` rejection is one of the seven gate errors. -/
theorem checkPolicy_error_cases {now : Nat} {sp ap : Bool}
    {cb : CircuitBreakerConfig} {w : RollingWindow}
    {agentId value recipient mD mH mT : Nat} {wl : List Nat}
    {e : EngineError}
    (h : checkPolicy now sp ap cb w agentId value recipient mD mH mT wl =
      .error e) :
    e = .SystemPaused ∨ e = .AgentIsPaused agentId ∨
    e = .CircuitBreakerActive ∨
    e = .PolicyViolation "Exceeds maxValuePerTx" ∨
    e = .PolicyViolation "Exceeds maxSpendPerDay" ∨
    e = .PolicyViolation "Exceeds maxTxPerHour" ∨
    e = .PolicyViolation "Recipient not whitelisted" := by
  unfold checkPolicy at h
  split_ifs at h <;> simp_all

/-- Transactions other than a successful `emitIntent` never change any agent
nonce; a successful `emitIntent` bumps exactly its agent's nonce, and only
when the supplied nonce equals the stored one. -/
theorem applyOp_agentNonces (s : SystemState) (op : Op) :
    (applyOp s op).agentNonces = s.agentNonces ∨
    ∃ now d signer, op = Op.emit now d signer ∧
      (emitIntent s now d signer).isOk = true ∧
      d.nonce = s.agentNonces d.agentId ∧
      (applyOp s op).agentNonces =
        Function.update s.agentNonces d.agentId
          (s.agentNonces d.agentId + 1) := by
  cases op with
  | regAgent c n a w pk cid pol =>
    left
    simp only [applyOp, applyOpE]
    rcases hE : registerAgent s c n a w pk cid pol with e | s'
    · rfl
    · simp [(registerAgent_ok_shape hE).2.2.2]
  | updMeta c a cid =>
    left
    simp only [applyOp, applyOpE]
    rcases hE : updateMetadata s c a cid with e | s'
    · rfl
    · simp [updateMetadata_ok_shape hE]
  | updPol c a pol =>
    left
    simp only [applyOp, applyOpE]
    rcases hE : updatePolicy s c a pol with e | s'
    · rfl
    · simp [updatePolicy_ok_shape hE]
  | deact c a =>
    left
    simp only [applyOp, applyOpE]
    rcases hE : deactivateAgent s c a with e | s'
    · rfl
    · simp [deactivateAgent_ok_shape hE]
  | react c a =>
    left
    simp only [applyOp, applyOpE]
    rcases hE : reactivateAgent s c a with e | s'
    · rfl
    · simp [reactivateAgent_ok_shape hE]
  | pauseAll c =>
    left
    simp only [applyOp, applyOpE]
    rcases hE : pauseSystem s c with e | s'
    · rfl
    · simp [pauseSystem_ok_shape hE]
  | unpauseAll c =>
    left
    simp only [applyOp, applyOpE]
    rcases hE : unpauseSystem s c with e | s'
    · rfl
    · simp [unpauseSystem_ok_shape hE]
  | pauseAg c a =>
    left
    simp only [applyOp, applyOpE]
    rcases hE : pauseAgentOp s c a with e | s'
    · rfl
    · simp [pauseAgentOp_ok_shape hE]
  | unpauseAg c a =>
    left
    simp only [applyOp, applyOpE]
    rcases hE : unpauseAgentOp s c a with e | s'
    · rfl
    · simp [unpauseAgentOp_ok_shape hE]
  | chkPolicy n a v r mD mH mT wl =>
    left
    simp only [applyOp, applyOpE]
    rcases hE : checkPolicyCall s n a v r mD mH mT wl with e | s'
    · rfl
    · obtain ⟨w, cb, _, hs⟩ := checkPolicyCall_ok_shape hE
      simp [hs]
  | emit n d sg =>
    simp only [applyOp, applyOpE]
    rcases hE : emitIntent s n d sg with e | s'
    · left
      rfl
    · right
      obtain ⟨_, _, hn, _, _, _, w, cb, _, hs⟩ := emitIntent_ok_shape hE
      exact ⟨n, d, sg, rfl, by rw [hE]; rfl, hn, by simp [hs]⟩
  | submit c n i =>
    left
    simp only [applyOp, applyOpE]
    rcases hE : submitIntent s c n i with e | s'
    · rfl
    · simp [(submitIntent_ok_shape hE).2.2.2]
  | exec c n i act t am =>
    left
    simp only [applyOp, applyOpE]
    rcases hE : executeIntent s c n i act t am with e | s'
    · rfl
    · simp [(executeIntent_ok_shape hE).2.2.2.2.2.2.2]
  | dispute c i r =>
    left
    simp only [applyOp, applyOpE]
    rcases hE : disputeIntent s c i r with e | s'
    · rfl
    · simp [(disputeIntent_ok_shape hE).2]
  | authRel c r =>
    left
    simp only [applyOp, applyOpE]
    rcases hE : authorizeRelayer s c r with e | s'
    · rfl
    · simp [authorizeRelayer_ok_shape hE]
  | revokeRel c r =>
    left
    simp only [applyOp, applyOpE]
    rcases hE : revokeRelayer s c r with e | s'
    · rfl
    · simp [revokeRelayer_ok_shape hE]
  | regRel c mv st n =>
    left
    simp only [applyOp, applyOpE]
    rcases hE : registerRelayer s c mv st n with e | s'
    · rfl
    · simp [(registerRelayer_ok_shape hE).2]
  | unregRel c =>
    left
    simp only [applyOp, applyOpE]
    rcases hE : unregisterRelayer s c with e | s'
    · rfl
    · simp [unregisterRelayer_ok_shape hE]
  | updRep c r suc n =>
    left
    simp only [applyOp, applyOpE]
    rcases hE : updateRelayerReputation s c r suc n with e | s'
    · rfl
    · simp [(updateRelayerReputation_ok_shape hE).2]

/-- Transactions that are not `emitIntent` calls leave the nonce table
untouched. -/
theorem applyOp_agentNonces_of_not_emit (s : SystemState) (op : Op)
    (h : ∀ now d signer, op ≠ Op.emit now d signer) :
    (applyOp s op).agentNonces = s.agentNonces := by
  rcases applyOp_agentNonces s op with h1 | ⟨n, d, sg, rfl, _⟩
  · exact h1
  · exact absurd rfl (h n d sg)

/-- A nonce never decreases across a transaction. -/
theorem applyOp_agentNonces_le (s : SystemState) (op : Op) (a : Nat) :
    s.agentNonces a ≤ (applyOp s op).agentNonces a := by
  rcases applyOp_agentNonces s op with h | ⟨n, d, sg, _, _, _, h⟩
  · rw [h]
  · rw [h]
    rcases eq_or_ne a d.agentId with rfl | hne
    · simp
    · simp [Function.update_noteq hne]

/-- A nonce never decreases across a run. -/
theorem runOps_agentNonces_le (ops : List Op) :
    ∀ (s : SystemState) (a : Nat),
      s.agentNonces a ≤ (runOps s ops).agentNonces a := by
  induction ops with
  | nil => intro s a; exact Nat.le_refl _
  | cons op rest ih =>
    intro s a
    exact Nat.le_trans (applyOp_agentNonces_le s op a) (ih (applyOp s op) a)

/-- A non-`emitIntent` transaction contributes nothing to the accepted-nonce
trace. -/
theorem acceptedNonces_cons_not_emit (s : SystemState) (op : Op)
    (rest : List Op) (a : Nat) (h : ∀ now d signer, op ≠ Op.emit now d signer) :
    acceptedNonces s (op :: rest) a = acceptedNonces (applyOp s op) rest a := by
  cases op <;> first | rfl | exact absurd rfl (h _ _ _)

/-- Along any run, the nonces accepted for an agent are exactly the
consecutive block from the agent's starting nonce up to (excluding) its
final nonce. -/
theorem acceptedNonces_eq_range' (ops : List Op) :
    ∀ (s : SystemState) (a : Nat),
      acceptedNonces s ops a =
        List.range' (s.agentNonces a)
          ((runOps s ops).agentNonces a - s.agentNonces a) := by
  induction ops with
  | nil => intro s a; simp [acceptedNonces, runOps]
  | cons op rest ih =>
    intro s a
    have hstep : runOps s (op :: rest) = runOps (applyOp s op) rest := rfl
    by_cases hne : ∀ n d sg, op ≠ Op.emit n d sg
    · rw [acceptedNonces_cons_not_emit s op rest a hne, hstep,
        ih (applyOp s op) a,
        congrFun (applyOp_agentNonces_of_not_emit s op hne) a]
    · push_neg at hne
      obtain ⟨n, d, sg, rfl⟩ := hne
      rcases hE : emitIntent s n d sg with e | s₁
      · have happ : applyOp s (Op.emit n d sg) = s := by
          simp [applyOp, applyOpE, hE]
        have hacc : acceptedNonces s (Op.emit n d sg :: rest) a =
            acceptedNonces (applyOp s (Op.emit n d sg)) rest a := by
          simp [acceptedNonces, hE, Except.isOk, Except.toBool]
        rw [hacc, hstep, ih (applyOp s (Op.emit n d sg)) a, happ]
      · obtain ⟨-, -, hn, -, -, -, w, cb, -, hs⟩ := emitIntent_ok_shape hE
        have happ : applyOp s (Op.emit n d sg) = s₁ := by
          simp [applyOp, applyOpE, hE]
        by_cases hag : d.agentId = a
        · subst hag
          have h1 : s₁.agentNonces d.agentId = s.agentNonces d.agentId + 1 := by
            simp [hs]
          have hle : s₁.agentNonces d.agentId ≤
              (runOps s₁ rest).agentNonces d.agentId :=
            runOps_agentNonces_le rest s₁ d.agentId
          have hacc : acceptedNonces s (Op.emit n d sg :: rest) d.agentId =
              d.nonce ::
                acceptedNonces (applyOp s (Op.emit n d sg)) rest d.agentId := by
            simp [acceptedNonces, hE, Except.isOk, Except.toBool]
          rw [hacc, hstep, happ, ih s₁ d.agentId, hn, h1]
          have hlen : (runOps s₁ rest).agentNonces d.agentId -
              s.agentNonces d.agentId =
              ((runOps s₁ rest).agentNonces d.agentId -
                (s.agentNonces d.agentId + 1)) + 1 := by omega
          rw [hlen, List.range'_succ]
        · have h2 : s₁.agentNonces a = s.agentNonces a := by
            simp [hs, Function.update_noteq (Ne.symm hag)]
          have hacc : acceptedNonces s (Op.emit n d sg :: rest) a =
              acceptedNonces (applyOp s (Op.emit n d sg)) rest a := by
            simp [acceptedNonces, hag]
          rw [hacc, hstep, happ, ih s₁ a, h2]

/-- No transaction can leave the circuit breaker tripped: the only write that
sets `tripped := true` (inside `_checkCircuitBreaker`) is rolled back by the
revert that immediately follows it, and an approved check always stores an
untripped breaker. -/
theorem applyOp_tripped_false (s : SystemState) (op : Op)
    (h : s.circuitBreaker.tripped = false) :
    (applyOp s op).circuitBreaker.tripped = false := by
  cases op with
  | regAgent c n a w pk cid pol =>
    simp only [applyOp, applyOpE]
    rcases hE : registerAgent s c n a w pk cid pol with e | s'
    · exact h
    · simp [(registerAgent_ok_shape hE).2.2.2, h]
  | updMeta c a cid =>
    simp only [applyOp, applyOpE]
    rcases hE : updateMetadata s c a cid with e | s'
    · exact h
    · simp [updateMetadata_ok_shape hE, h]
  | updPol c a pol =>
    simp only [applyOp, applyOpE]
    rcases hE : updatePolicy s c a pol with e | s'
    · exact h
    · simp [updatePolicy_ok_shape hE, h]
  | deact c a =>
    simp only [applyOp, applyOpE]
    rcases hE : deactivateAgent s c a with e | s'
    · exact h
    · simp [deactivateAgent_ok_shape hE, h]
  | react c a =>
    simp only [applyOp, applyOpE]
    rcases hE : reactivateAgent s c a with e | s'
    · exact h
    · simp [reactivateAgent_ok_shape hE, h]
  | pauseAll c =>
    simp only [applyOp, applyOpE]
    rcases hE : pauseSystem s c with e | s'
    · exact h
    · simp [pauseSystem_ok_shape hE, h]
  | unpauseAll c =>
    simp only [applyOp, applyOpE]
    rcases hE : unpauseSystem s c with e | s'
    · exact h
    · simp [unpauseSystem_ok_shape hE, h]
  | pauseAg c a =>
    simp only [applyOp, applyOpE]
    rcases hE : pauseAgentOp s c a with e | s'
    · exact h
    · simp [pauseAgentOp_ok_shape hE, h]
  | unpauseAg c a =>
    simp only [applyOp, applyOpE]
    rcases hE : unpauseAgentOp s c a with e | s'
    · exact h
    · simp [unpauseAgentOp_ok_shape hE, h]
  | chkPolicy n a v r mD mH mT wl =>
    simp only [applyOp, applyOpE]
    rcases hE : checkPolicyCall s n a v r mD mH mT wl with e | s'
    · exact h
    · obtain ⟨w, cb, hcp, hs⟩ := checkPolicyCall_ok_shape hE
      simp [hs, checkPolicy_ok_tripped hcp]
  | emit n d sg =>
    simp only [applyOp, applyOpE]
    rcases hE : emitIntent s n d sg with e | s'
    · exact h
    · obtain ⟨-, -, -, -, -, -, w, cb, hcp, hs⟩ := emitIntent_ok_shape hE
      simp [hs, checkPolicy_ok_tripped hcp]
  | submit c n i =>
    simp only [applyOp, applyOpE]
    rcases hE : submitIntent s c n i with e | s'
    · exact h
    · simp [(submitIntent_ok_shape hE).2.2.2, h]
  | exec c n i act t am =>
    simp only [applyOp, applyOpE]
    rcases hE : executeIntent s c n i act t am with e | s'
    · exact h
    · simp [(executeIntent_ok_shape hE).2.2.2.2.2.2.2, h]
  | dispute c i r =>
    simp only [applyOp, applyOpE]
    rcases hE : disputeIntent s c i r with e | s'
    · exact h
    · simp [(disputeIntent_ok_shape hE).2, h]
  | authRel c r =>
    simp only [applyOp, applyOpE]
    rcases hE : authorizeRelayer s c r with e | s'
    · exact h
    · simp [authorizeRelayer_ok_shape hE, h]
  | revokeRel c r =>
    simp only [applyOp, applyOpE]
    rcases hE : revokeRelayer s c r with e | s'
    · exact h
    · simp [revokeRelayer_ok_shape hE, h]
  | regRel c mv st n =>
    simp only [applyOp, applyOpE]
    rcases hE : registerRelayer s c mv st n with e | s'
    · exact h
    · simp [(registerRelayer_ok_shape hE).2, h]
  | unregRel c =>
    simp only [applyOp, applyOpE]
    rcases hE : unregisterRelayer s c with e | s'
    · exact h
    · simp [unregisterRelayer_ok_shape hE, h]
  | updRep c r suc n =>
    simp only [applyOp, applyOpE]
    rcases hE : updateRelayerReputation s c r suc n with e | s'
    · exact h
    · simp [(updateRelayerReputation_ok_shape hE).2, h]

/-- In every reachable state the circuit breaker is untripped, so the
`CircuitBreakerActive` rejection of `checkPolicy` is unreachable in the
deployed system. -/
theorem runOps_tripped_false (ops : List Op) :
    (runOps initialSystemState ops).circuitBreaker.tripped = false := by
  suffices hgen : ∀ (s : SystemState), s.circuitBreaker.tripped = false →
      (runOps s ops).circuitBreaker.tripped = false from
    hgen initialSystemState rfl
  induction ops with
  | nil => intro s hs; exact hs
  | cons op rest ih =>
    intro s hs
    exact ih (applyOp s op) (applyOp_tripped_false s op hs)

/-- Invariant for C10: an intent whose committed action is neither
"transfer" nor "call" is never in Executed status. -/
def UnsupportedNeverExecuted (s : SystemState) : Prop :=
  ∀ id, (s.intents id).actionHash ≠ "transfer" →
    (s.intents id).actionHash ≠ "call" →
    (s.intents id).status ≠ Status.Executed

/-- Every transaction preserves `UnsupportedNeverExecuted`: the only write of
status Executed, in `executeIntent`, requires the payload action to equal the
committed action hash and to be "transfer" or "call". -/
theorem applyOp_unsupported (s : SystemState) (op : Op)
    (h : UnsupportedNeverExecuted s) :
    UnsupportedNeverExecuted (applyOp s op) := by
  cases op with
  | regAgent c n a w pk cid pol =>
    simp only [applyOp, applyOpE]
    rcases hE : registerAgent s c n a w pk cid pol with e | s'
    · exact h
    · rw [(registerAgent_ok_shape hE).2.2.2]
      exact h
  | updMeta c a cid =>
    simp only [applyOp, applyOpE]
    rcases hE : updateMetadata s c a cid with e | s'
    · exact h
    · rw [updateMetadata_ok_shape hE]
      exact h
  | updPol c a pol =>
    simp only [applyOp, applyOpE]
    rcases hE : updatePolicy s c a pol with e | s'
    · exact h
    · rw [updatePolicy_ok_shape hE]
      exact h
  | deact c a =>
    simp only [applyOp, applyOpE]
    rcases hE : deactivateAgent s c a with e | s'
    · exact h
    · rw [deactivateAgent_ok_shape hE]
      exact h
  | react c a =>
    simp only [applyOp, applyOpE]
    rcases hE : reactivateAgent s c a with e | s'
    · exact h
    · rw [reactivateAgent_ok_shape hE]
      exact h
  | pauseAll c =>
    simp only [applyOp, applyOpE]
    rcases hE : pauseSystem s c with e | s'
    · exact h
    · rw [pauseSystem_ok_shape hE]
      exact h
  | unpauseAll c =>
    simp only [applyOp, applyOpE]
    rcases hE : unpauseSystem s c with e | s'
    · exact h
    · rw [unpauseSystem_ok_shape hE]
      exact h
  | pauseAg c a =>
    simp only [applyOp, applyOpE]
    rcases hE : pauseAgentOp s c a with e | s'
    · exact h
    · rw [pauseAgentOp_ok_shape hE]
      exact h
  | unpauseAg c a =>
    simp only [applyOp, applyOpE]
    rcases hE : unpauseAgentOp s c a with e | s'
    · exact h
    · rw [unpauseAgentOp_ok_shape hE]
      exact h
  | chkPolicy n a v r mD mH mT wl =>
    simp only [applyOp, applyOpE]
    rcases hE : checkPolicyCall s n a v r mD mH mT wl with e | s'
    · exact h
    · obtain ⟨w, cb, hcp, hs⟩ := checkPolicyCall_ok_shape hE
      rw [hs]
      exact h
  | emit n d sg =>
    simp only [applyOp, applyOpE]
    rcases hE : emitIntent s n d sg with e | s'
    · exact h
    · obtain ⟨-, -, -, -, -, -, w, cb, -, hs⟩ := emitIntent_ok_shape hE
      subst hs
      intro id h1 h2
      by_cases hid : id = d.intentId
      · subst hid
        simp
      · simp only [Function.update_noteq hid] at h1 h2 ⊢
        exact h id h1 h2
  | submit c n i =>
    simp only [applyOp, applyOpE]
    rcases hE : submitIntent s c n i with e | s'
    · exact h
    · obtain ⟨-, -, -, hs⟩ := submitIntent_ok_shape hE
      subst hs
      intro id h1 h2
      by_cases hid : id = i
      · subst hid
        simp
      · simp only [Function.update_noteq hid] at h1 h2 ⊢
        exact h id h1 h2
  | exec c n i act t am =>
    simp only [applyOp, applyOpE]
    rcases hE : executeIntent s c n i act t am with e | s'
    · exact h
    · obtain ⟨-, -, -, hact, -, -, hta, hs⟩ := executeIntent_ok_shape hE
      subst hs
      intro id h1 h2
      by_cases hid : id = i
      · subst hid
        exfalso
        simp only [Function.update_same] at h1 h2
        rcases hta with hta | hta <;> simp_all
      · simp only [Function.update_noteq hid] at h1 h2 ⊢
        exact h id h1 h2
  | dispute c i r =>
    simp only [applyOp, applyOpE]
    rcases hE : disputeIntent s c i r with e | s'
    · exact h
    · obtain ⟨-, hs⟩ := disputeIntent_ok_shape hE
      subst hs
      intro id h1 h2
      by_cases hid : id = i
      · subst hid
        simp
      · simp only [Function.update_noteq hid] at h1 h2 ⊢
        exact h id h1 h2
  | authRel c r =>
    simp only [applyOp, applyOpE]
    rcases hE : authorizeRelayer s c r with e | s'
    · exact h
    · rw [authorizeRelayer_ok_shape hE]
      exact h
  | revokeRel c r =>
    simp only [applyOp, applyOpE]
    rcases hE : revokeRelayer s c r with e | s'
    · exact h
    · rw [revokeRelayer_ok_shape hE]
      exact h
  | regRel c mv st n =>
    simp only [applyOp, applyOpE]
    rcases hE : registerRelayer s c mv st n with e | s'
    · exact h
    · rw [(registerRelayer_ok_shape hE).2]
      exact h
  | unregRel c =>
    simp only [applyOp, applyOpE]
    rcases hE : unregisterRelayer s c with e | s'
    · exact h
    · rw [unregisterRelayer_ok_shape hE]
      exact h
  | updRep c r suc n =>
    simp only [applyOp, applyOpE]
    rcases hE : updateRelayerReputation s c r suc n with e | s'
    · exact h
    · rw [(updateRelayerReputation_ok_shape hE).2]
      exact h

/-- `UnsupportedNeverExecuted` holds in every reachable state. -/
theorem runOps_unsupported (ops : List Op) :
    UnsupportedNeverExecuted (runOps initialSystemState ops) := by
  suffices hgen : ∀ (s : SystemState), UnsupportedNeverExecuted s →
      UnsupportedNeverExecuted (runOps s ops) from
    hgen initialSystemState (fun id h1 h2 => by simp [initialSystemState, defaultIntent])
  induction ops with
  | nil => intro s hs; exact hs
  | cons op rest ih =>
    intro s hs
    exact ih (applyOp s op) (applyOp_unsupported s op hs)

/-- Once an agent record holds a nonzero signing wallet, no transaction ever
changes that wallet: `registerAgent` refuses taken agent ids, and the other
registry operations rewrite only the metadata and active-flag fields. -/
theorem applyOp_wallet_stable (s : SystemState) (op : Op) (a : Nat)
    (h : (s.agents a).wallet ≠ 0) :
    ((applyOp s op).agents a).wallet = (s.agents a).wallet := by
  cases op with
  | regAgent c n aId w pk cid pol =>
    simp only [applyOp, applyOpE]
    rcases hE : registerAgent s c n aId w pk cid pol with e | s'
    · rfl
    · obtain ⟨hw0, -, -, hs⟩ := registerAgent_ok_shape hE
      subst hs
      by_cases hid : a = aId
      · subst hid
        exact absurd hw0 h
      · simp [Function.update_noteq hid]
  | updMeta c aId cid =>
    simp only [applyOp, applyOpE]
    rcases hE : updateMetadata s c aId cid with e | s'
    · rfl
    · rw [updateMetadata_ok_shape hE]
      by_cases hid : a = aId
      · subst hid
        simp
      · simp [Function.update_noteq hid]
  | updPol c aId pol =>
    simp only [applyOp, applyOpE]
    rcases hE : updatePolicy s c aId pol with e | s'
    · rfl
    · rw [updatePolicy_ok_shape hE]
  | deact c aId =>
    simp only [applyOp, applyOpE]
    rcases hE : deactivateAgent s c aId with e | s'
    · rfl
    · rw [deactivateAgent_ok_shape hE]
      by_cases hid : a = aId
      · subst hid
        simp
      · simp [Function.update_noteq hid]
  | react c aId =>
    simp only [applyOp, applyOpE]
    rcases hE : reactivateAgent s c aId with e | s'
    · rfl
    · rw [reactivateAgent_ok_shape hE]
      by_cases hid : a = aId
      · subst hid
        simp
      · simp [Function.update_noteq hid]
  | pauseAll c =>
    simp only [applyOp, applyOpE]
    rcases hE : pauseSystem s c with e | s'
    · rfl
    · rw [pauseSystem_ok_shape hE]
  | unpauseAll c =>
    simp only [applyOp, applyOpE]
    rcases hE : unpauseSystem s c with e | s'
    · rfl
    · rw [unpauseSystem_ok_shape hE]
  | pauseAg c aId =>
    simp only [applyOp, applyOpE]
    rcases hE : pauseAgentOp s c aId with e | s'
    · rfl
    · rw [pauseAgentOp_ok_shape hE]
  | unpauseAg c aId =>
    simp only [applyOp, applyOpE]
    rcases hE : unpauseAgentOp s c aId with e | s'
    · rfl
    · rw [unpauseAgentOp_ok_shape hE]
  | chkPolicy n aId v r mD mH mT wl =>
    simp only [applyOp, applyOpE]
    rcases hE : checkPolicyCall s n aId v r mD mH mT wl with e | s'
    · rfl
    · obtain ⟨w, cb, -, hs⟩ := checkPolicyCall_ok_shape hE
      rw [hs]
  | emit n d sg =>
    simp only [applyOp, applyOpE]
    rcases hE : emitIntent s n d sg with e | s'
    · rfl
    · obtain ⟨-, -, -, -, -, -, w, cb, -, hs⟩ := emitIntent_ok_shape hE
      rw [hs]
  | submit c n i =>
    simp only [applyOp, applyOpE]
    rcases hE : submitIntent s c n i with e | s'
    · rfl
    · rw [(submitIntent_ok_shape hE).2.2.2]
  | exec c n i act t am =>
    simp only [applyOp, applyOpE]
    rcases hE : executeIntent s c n i act t am with e | s'
    · rfl
    · rw [(executeIntent_ok_shape hE).2.2.2.2.2.2.2]
  | dispute c i r =>
    simp only [applyOp, applyOpE]
    rcases hE : disputeIntent s c i r with e | s'
    · rfl
    · rw [(disputeIntent_ok_shape hE).2]
  | authRel c r =>
    simp only [applyOp, applyOpE]
    rcases hE : authorizeRelayer s c r with e | s'
    · rfl
    · rw [authorizeRelayer_ok_shape hE]
  | revokeRel c r =>
    simp only [applyOp, applyOpE]
    rcases hE : revokeRelayer s c r with e | s'
    · rfl
    · rw [revokeRelayer_ok_shape hE]
  | regRel c mv st n =>
    simp only [applyOp, applyOpE]
    rcases hE : registerRelayer s c mv st n with e | s'
    · rfl
    · rw [(registerRelayer_ok_shape hE).2]
  | unregRel c =>
    simp only [applyOp, applyOpE]
    rcases hE : unregisterRelayer s c with e | s'
    · rfl
    · rw [unregisterRelayer_ok_shape hE]
  | updRep c r suc n =>
    simp only [applyOp, applyOpE]
    rcases hE : updateRelayerReputation s c r suc n with e | s'
    · rfl
    · rw [(updateRelayerReputation_ok_shape hE).2]

/-- Registry invariant for C7: every agent stored under a nonzero id with a
bound (nonzero) wallet is the value of the reverse lookup at that wallet. -/
def RegInv (s : SystemState) : Prop :=
  ∀ a, a ≠ 0 → (s.agents a).wallet ≠ 0 →
    s.walletToAgentId ((s.agents a).wallet) = a

/-- Every transaction preserves `RegInv`. -/
theorem applyOp_RegInv (s : SystemState) (op : Op) (h : RegInv s) :
    RegInv (applyOp s op) := by
  cases op with
  | regAgent c n aId w pk cid pol =>
    simp only [applyOp, applyOpE]
    rcases hE : registerAgent s c n aId w pk cid pol with e | s'
    · exact h
    · show RegInv s'
      obtain ⟨hw0, hwne, hbound, hs⟩ := registerAgent_ok_shape hE
      subst hs
      intro a ha hwa
      by_cases hid : a = aId
      · subst hid
        show Function.update s.walletToAgentId w a
          ((Function.update s.agents a
            { owner := c, wallet := w, publicKey := pk, metadataCID := cid
            , active := true, registeredAt := n } : Nat → Agent) a).wallet = a
        rw [Function.update_same]
        exact Function.update_same w a s.walletToAgentId
      · have hwa2 : (s.agents a).wallet ≠ 0 := by
          simpa [Function.update_noteq hid] using hwa
        have hold := h a ha hwa2
        have hw : (s.agents a).wallet ≠ w := by
          intro hcontra
          rw [hcontra, hbound] at hold
          exact ha hold.symm
        show Function.update s.walletToAgentId w aId
          ((Function.update s.agents aId
            { owner := c, wallet := w, publicKey := pk, metadataCID := cid
            , active := true, registeredAt := n } : Nat → Agent) a).wallet = a
        rw [Function.update_noteq hid, Function.update_noteq hw]
        exact hold
  | updMeta c aId cid =>
    simp only [applyOp, applyOpE]
    rcases hE : updateMetadata s c aId cid with e | s'
    · exact h
    · rw [updateMetadata_ok_shape hE]
      intro a ha hwa
      by_cases hid : a = aId
      · subst hid
        simp only [Function.update_same] at hwa ⊢
        exact h a ha hwa
      · simp only [Function.update_noteq hid] at hwa ⊢
        exact h a ha hwa
  | updPol c aId pol =>
    simp only [applyOp, applyOpE]
    rcases hE : updatePolicy s c aId pol with e | s'
    · exact h
    · rw [updatePolicy_ok_shape hE]
      exact h
  | deact c aId =>
    simp only [applyOp, applyOpE]
    rcases hE : deactivateAgent s c aId with e | s'
    · exact h
    · rw [deactivateAgent_ok_shape hE]
      intro a ha hwa
      by_cases hid : a = aId
      · subst hid
        simp only [Function.update_same] at hwa ⊢
        exact h a ha hwa
      · simp only [Function.update_noteq hid] at hwa ⊢
        exact h a ha hwa
  | react c aId =>
    simp only [applyOp, applyOpE]
    rcases hE : reactivateAgent s c aId with e | s'
    · exact h
    · rw [reactivateAgent_ok_shape hE]
      intro a ha hwa
      by_cases hid : a = aId
      · subst hid
        simp only [Function.update_same] at hwa ⊢
        exact h a ha hwa
      · simp only [Function.update_noteq hid] at hwa ⊢
        exact h a ha hwa
  | pauseAll c =>
    simp only [applyOp, applyOpE]
    rcases hE : pauseSystem s c with e | s'
    · exact h
    · rw [pauseSystem_ok_shape hE]
      exact h
  | unpauseAll c =>
    simp only [applyOp, applyOpE]
    rcases hE : unpauseSystem s c with e | s'
    · exact h
    · rw [unpauseSystem_ok_shape hE]
      exact h
  | pauseAg c aId =>
    simp only [applyOp, applyOpE]
    rcases hE : pauseAgentOp s c aId with e | s'
    · exact h
    · rw [pauseAgentOp_ok_shape hE]
      exact h
  | unpauseAg c aId =>
    simp only [applyOp, applyOpE]
    rcases hE : unpauseAgentOp s c aId with e | s'
    · exact h
    · rw [unpauseAgentOp_ok_shape hE]
      exact h
  | chkPolicy n aId v r mD mH mT wl =>
    simp only [applyOp, applyOpE]
    rcases hE : checkPolicyCall s n aId v r mD mH mT wl with e | s'
    · exact h
    · obtain ⟨w, cb, -, hs⟩ := checkPolicyCall_ok_shape hE
      rw [hs]
      exact h
  | emit n d sg =>
    simp only [applyOp, applyOpE]
    rcases hE : emitIntent s n d sg with e | s'
    · exact h
    · obtain ⟨-, -, -, -, -, -, w, cb, -, hs⟩ := emitIntent_ok_shape hE
      rw [hs]
      exact h
  | submit c n i =>
    simp only [applyOp, applyOpE]
    rcases hE : submitIntent s c n i with e | s'
    · exact h
    · rw [(submitIntent_ok_shape hE).2.2.2]
      exact h
  | exec c n i act t am =>
    simp only [applyOp, applyOpE]
    rcases hE : executeIntent s c n i act t am with e | s'
    · exact h
    · rw [(executeIntent_ok_shape hE).2.2.2.2.2.2.2]
      exact h
  | dispute c i r =>
    simp only [applyOp, applyOpE]
    rcases hE : disputeIntent s c i r with e | s'
    · exact h
    · rw [(disputeIntent_ok_shape hE).2]
      exact h
  | authRel c r =>
    simp only [applyOp, applyOpE]
    rcases hE : authorizeRelayer s c r with e | s'
    · exact h
    · rw [authorizeRelayer_ok_shape hE]
      exact h
  | revokeRel c r =>
    simp only [applyOp, applyOpE]
    rcases hE : revokeRelayer s c r with e | s'
    · exact h
    · rw [revokeRelayer_ok_shape hE]
      exact h
  | regRel c mv st n =>
    simp only [applyOp, applyOpE]
    rcases hE : registerRelayer s c mv st n with e | s'
    · exact h
    · rw [(registerRelayer_ok_shape hE).2]
      exact h
  | unregRel c =>
    simp only [applyOp, applyOpE]
    rcases hE : unregisterRelayer s c with e | s'
    · exact h
    · rw [unregisterRelayer_ok_shape hE]
      exact h
  | updRep c r suc n =>
    simp only [applyOp, applyOpE]
    rcases hE : updateRelayerReputation s c r suc n with e | s'
    · exact h
    · rw [(updateRelayerReputation_ok_shape hE).2]
      exact h

/-- `RegInv` holds in every reachable state. -/
theorem runOps_RegInv (ops : List Op) :
    RegInv (runOps initialSystemState ops) := by
  suffices hgen : ∀ (s : SystemState), RegInv s → RegInv (runOps s ops) from
    hgen initialSystemState
      (fun a ha hwa => absurd rfl hwa)
  induction ops with
  | nil => intro s hs; exact hs
  | cons op rest ih =>
    intro s hs
    exact ih (applyOp s op) (applyOp_RegInv s op hs)

/-- The only transaction that moves an intent into Disputed status is a
`disputeIntent` call on exactly that intent id. -/
theorem applyOp_disputed_source (s : SystemState) (op : Op) (id : Nat) :
    ((applyOp s op).intents id).status = Status.Disputed →
    (s.intents id).status = Status.Disputed ∨
    ∃ caller reason, op = Op.dispute caller id reason := by
  cases op with
  | regAgent c n a w pk cid pol =>
    simp only [applyOp, applyOpE]
    rcases hE : registerAgent s c n a w pk cid pol with e | s'
    · exact fun hh => .inl hh
    · rw [(registerAgent_ok_shape hE).2.2.2]
      exact fun hh => .inl hh
  | updMeta c a cid =>
    simp only [applyOp, applyOpE]
    rcases hE : updateMetadata s c a cid with e | s'
    · exact fun hh => .inl hh
    · rw [updateMetadata_ok_shape hE]
      exact fun hh => .inl hh
  | updPol c a pol =>
    simp only [applyOp, applyOpE]
    rcases hE : updatePolicy s c a pol with e | s'
    · exact fun hh => .inl hh
    · rw [updatePolicy_ok_shape hE]
      exact fun hh => .inl hh
  | deact c a =>
    simp only [applyOp, applyOpE]
    rcases hE : deactivateAgent s c a with e | s'
    · exact fun hh => .inl hh
    · rw [deactivateAgent_ok_shape hE]
      exact fun hh => .inl hh
  | react c a =>
    simp only [applyOp, applyOpE]
    rcases hE : reactivateAgent s c a with e | s'
    · exact fun hh => .inl hh
    · rw [reactivateAgent_ok_shape hE]
      exact fun hh => .inl hh
  | pauseAll c =>
    simp only [applyOp, applyOpE]
    rcases hE : pauseSystem s c with e | s'
    · exact fun hh => .inl hh
    · rw [pauseSystem_ok_shape hE]
      exact fun hh => .inl hh
  | unpauseAll c =>
    simp only [applyOp, applyOpE]
    rcases hE : unpauseSystem s c with e | s'
    · exact fun hh => .inl hh
    · rw [unpauseSystem_ok_shape hE]
      exact fun hh => .inl hh
  | pauseAg c a =>
    simp only [applyOp, applyOpE]
    rcases hE : pauseAgentOp s c a with e | s'
    · exact fun hh => .inl hh
    · rw [pauseAgentOp_ok_shape hE]
      exact fun hh => .inl hh
  | unpauseAg c a =>
    simp only [applyOp, applyOpE]
    rcases hE : unpauseAgentOp s c a with e | s'
    · exact fun hh => .inl hh
    · rw [unpauseAgentOp_ok_shape hE]
      exact fun hh => .inl hh
  | chkPolicy n a v r mD mH mT wl =>
    simp only [applyOp, applyOpE]
    rcases hE : checkPolicyCall s n a v r mD mH mT wl with e | s'
    · exact fun hh => .inl hh
    · obtain ⟨w, cb, -, hs⟩ := checkPolicyCall_ok_shape hE
      rw [hs]
      exact fun hh => .inl hh
  | emit n d sg =>
    simp only [applyOp, applyOpE]
    rcases hE : emitIntent s n d sg with e | s'
    · exact fun hh => .inl hh
    · obtain ⟨-, -, -, -, -, -, w, cb, -, hs⟩ := emitIntent_ok_shape hE
      subst hs
      intro hh
      by_cases hid : id = d.intentId
      · subst hid
        simp at hh
      · simp only [Function.update_noteq hid] at hh
        exact .inl hh
  | submit c n i =>
    simp only [applyOp, applyOpE]
    rcases hE : submitIntent s c n i with e | s'
    · exact fun hh => .inl hh
    · obtain ⟨-, -, -, hs⟩ := submitIntent_ok_shape hE
      subst hs
      intro hh
      by_cases hid : id = i
      · subst hid
        simp at hh
      · simp only [Function.update_noteq hid] at hh
        exact .inl hh
  | exec c n i act t am =>
    simp only [applyOp, applyOpE]
    rcases hE : executeIntent s c n i act t am with e | s'
    · exact fun hh => .inl hh
    · obtain ⟨-, -, -, -, -, -, -, hs⟩ := executeIntent_ok_shape hE
      subst hs
      intro hh
      by_cases hid : id = i
      · subst hid
        simp at hh
      · simp only [Function.update_noteq hid] at hh
        exact .inl hh
  | dispute c i r =>
    simp only [applyOp, applyOpE]
    rcases hE : disputeIntent s c i r with e | s'
    · exact fun hh => .inl hh
    · obtain ⟨-, hs⟩ := disputeIntent_ok_shape hE
      subst hs
      intro hh
      by_cases hid : id = i
      · subst hid
        exact .inr ⟨c, r, rfl⟩
      · simp only [Function.update_noteq hid] at hh
        exact .inl hh
  | authRel c r =>
    simp only [applyOp, applyOpE]
    rcases hE : authorizeRelayer s c r with e | s'
    · exact fun hh => .inl hh
    · rw [authorizeRelayer_ok_shape hE]
      exact fun hh => .inl hh
  | revokeRel c r =>
    simp only [applyOp, applyOpE]
    rcases hE : revokeRelayer s c r with e | s'
    · exact fun hh => .inl hh
    · rw [revokeRelayer_ok_shape hE]
      exact fun hh => .inl hh
  | regRel c mv st n =>
    simp only [applyOp, applyOpE]
    rcases hE : registerRelayer s c mv st n with e | s'
    · exact fun hh => .inl hh
    · rw [(registerRelayer_ok_shape hE).2]
      exact fun hh => .inl hh
  | unregRel c =>
    simp only [applyOp, applyOpE]
    rcases hE : unregisterRelayer s c with e | s'
    · exact fun hh => .inl hh
    · rw [unregisterRelayer_ok_shape hE]
      exact fun hh => .inl hh
  | updRep c r suc n =>
    simp only [applyOp, applyOpE]
    rcases hE : updateRelayerReputation s c r suc n with e | s'
    · exact fun hh => .inl hh
    · rw [(updateRelayerReputation_ok_shape hE).2]
      exact fun hh => .inl hh

/-- Field-by-field description of `updatedReputation`: processed count up by
one; success count and reputation moved as the source's success/failure
branches dictate; last-active stamped. -/
theorem updatedReputation_spec (info : RelayerInfo) (success : Bool)
    (now : Nat) :
    (updatedReputation info success now).intentsProcessed =
      info.intentsProcessed + 1 ∧
    (updatedReputation info success now).lastActive = now ∧
    (success = true →
      (updatedReputation info success now).successfulExecutions =
        info.successfulExecutions + 1 ∧
      (updatedReputation info success now).reputationScore =
        (if info.reputationScore < 200 then info.reputationScore + 1
         else info.reputationScore)) ∧
    (success = false →
      (updatedReputation info success now).successfulExecutions =
        info.successfulExecutions ∧
      (updatedReputation info success now).reputationScore =
        (if 10 < info.reputationScore then info.reputationScore - 5
         else info.reputationScore)) := by
  unfold updatedReputation
  cases success <;> simp <;> split_ifs <;> simp

/-- Reputation stays inside the interval from 6 to 200 across one update
(starting inside it). -/
theorem updatedReputation_bounds (info : RelayerInfo) (success : Bool)
    (now : Nat) (h6 : 6 ≤ info.reputationScore)
    (h200 : info.reputationScore ≤ 200) :
    6 ≤ (updatedReputation info success now).reputationScore ∧
    (updatedReputation info success now).reputationScore ≤ 200 := by
  unfold updatedReputation
  cases success <;> simp <;> split_ifs <;> simp <;> omega

/-- The running best score of the selection fold never decreases. -/
theorem selectFold_fst_le (s : SystemState) (now : Nat) (l : List Nat) :
    ∀ best : Nat × Nat, best.1 ≤ (l.foldl (selectStep s now) best).1 := by
  induction l with
  | nil => intro best; exact Nat.le_refl _
  | cons x rest ih =>
    intro best
    refine Nat.le_trans ?_ (ih (selectStep s now best x))
    unfold selectStep
    split_ifs <;> simp <;> omega

/-- Every active member of the list scores at most the final best score. -/
theorem selectFold_score_le (s : SystemState) (now : Nat) (l : List Nat) :
    ∀ (best : Nat × Nat) (r : Nat), r ∈ l →
      (s.relayerInfo r).isActive = true →
      relayerScore now (s.relayerInfo r) ≤ (l.foldl (selectStep s now) best).1 := by
  induction l with
  | nil =>
    intro best r hr
    cases hr
  | cons x rest ih =>
    intro best r hr hact
    rcases List.mem_cons.mp hr with rfl | hr2
    · refine Nat.le_trans ?_
        (selectFold_fst_le s now rest (selectStep s now best r))
      unfold selectStep
      split_ifs with h1
      · simp
      · omega
    · exact ih (selectStep s now best x) r hr2 hact

/-- The selection fold either returns its initial pair unchanged or an
active member of the list carrying its own score. -/
theorem selectFold_shape (s : SystemState) (now : Nat) (l : List Nat) :
    ∀ best : Nat × Nat,
      l.foldl (selectStep s now) best = best ∨
      ∃ r, r ∈ l ∧ (s.relayerInfo r).isActive = true ∧
        (l.foldl (selectStep s now) best).1 =
          relayerScore now (s.relayerInfo r) ∧
        (l.foldl (selectStep s now) best).2 = r := by
  induction l with
  | nil => intro best; exact .inl rfl
  | cons x rest ih =>
    intro best
    have hfold : (x :: rest).foldl (selectStep s now) best =
        rest.foldl (selectStep s now) (selectStep s now best x) := rfl
    by_cases hx : selectStep s now best x = best
    · rcases ih (selectStep s now best x) with h | ⟨r, hr, hact, h1, h2⟩
      · left
        rw [hfold, h, hx]
      · right
        exact ⟨r, List.mem_cons_of_mem x hr, hact, by rw [hfold, h1],
          by rw [hfold, h2]⟩
    · have hx2 : (s.relayerInfo x).isActive = true ∧
          selectStep s now best x =
            (relayerScore now (s.relayerInfo x), x) := by
        unfold selectStep at hx ⊢
        split_ifs at hx ⊢ with h1 h2
        · exact ⟨h1, rfl⟩
        · exact absurd rfl hx
        · exact absurd rfl hx
      rcases ih (selectStep s now best x) with h | ⟨r, hr, hact, h1, h2⟩
      · right
        refine ⟨x, List.mem_cons_self x rest, hx2.1, ?_, ?_⟩
        · rw [hfold, h, hx2.2]
        · rw [hfold, h, hx2.2]
      · right
        exact ⟨r, List.mem_cons_of_mem x hr, hact, by rw [hfold, h1],
          by rw [hfold, h2]⟩

/-- If no active member of the list beats the initial score, the fold keeps
the initial pair (this is the first-encountered-wins tie-break). -/
theorem selectFold_no_improve (s : SystemState) (now : Nat) (l : List Nat) :
    ∀ best : Nat × Nat,
      (∀ r, r ∈ l → (s.relayerInfo r).isActive = true →
        relayerScore now (s.relayerInfo r) ≤ best.1) →
      l.foldl (selectStep s now) best = best := by
  induction l with
  | nil => intro best h; rfl
  | cons x rest ih =>
    intro best h
    have hx : selectStep s now best x = best := by
      unfold selectStep
      split_ifs with h1 h2
      · exact absurd (h x (List.mem_cons_self x rest) h1) (by omega)
      · rfl
      · rfl
    have hfold : (x :: rest).foldl (selectStep s now) best =
        rest.foldl (selectStep s now) (selectStep s now best x) := rfl
    rw [hfold, hx]
    exact ih best (fun r hr hact => h r (List.mem_cons_of_mem x hr) hact)

/-- A reverted direct `checkPolicy` transaction carries the error of the
underlying gate function. -/
theorem checkPolicyCall_error {s : SystemState}
    {now agentId value recipient mD mH mT : Nat} {wl : List Nat}
    {e : EngineError}
    (h : checkPolicyCall s now agentId value recipient mD mH mT wl =
      .error e) :
    checkPolicy now s.paused (s.agentPaused agentId) s.circuitBreaker
      (s.rollingWindows agentId) agentId value recipient mD mH mT wl =
      .error e := by
  unfold checkPolicyCall at h
  rcases hcp : checkPolicy now s.paused (s.agentPaused agentId)
      s.circuitBreaker (s.rollingWindows agentId) agentId value recipient
      mD mH mT wl with e2 | ⟨w, cb⟩
  · rw [hcp] at h
    simp at h
    rw [h]
  · rw [hcp] at h
    simp at h

/-- C1: `emitIntent` rejects with InvalidNonce whenever the supplied nonce
differs from the agent's stored nonce (strict equality; the duplicate-id and
expiry gates come first), a successful emission advances exactly that
agent's nonce by 1, a rejected emission leaves the engine state unchanged,
and therefore along any run from the fresh deployment the nonces accepted
for an agent are exactly 0, 1, 2, ... up to the agent's final stored nonce,
with no gaps or repeats. -/
theorem C1_nonce_sequence :
    (∀ (s : SystemState) (now : Nat) (d : IntentData) (signer : Nat),
        (s.intents d.intentId).intentId = 0 → now ≤ d.expiry →
        d.nonce ≠ s.agentNonces d.agentId →
        emitIntent s now d signer = .error .InvalidNonce) ∧
    (∀ (s : SystemState) (now : Nat) (d : IntentData) (signer : Nat)
        (s' : SystemState), emitIntent s now d signer = .ok s' →
        d.nonce = s.agentNonces d.agentId ∧
        s'.agentNonces d.agentId = s.agentNonces d.agentId + 1) ∧
    (∀ (s : SystemState) (now : Nat) (d : IntentData) (signer : Nat)
        (e : EngineError), emitIntent s now d signer = .error e →
        applyOp s (Op.emit now d signer) = s) ∧
    (∀ (ops : List Op) (a : Nat),
        acceptedNonces initialSystemState ops a =
          List.range ((runOps initialSystemState ops).agentNonces a)) := by
  refine ⟨?_, ?_, ?_, ?_⟩
  · intro s now d signer h1 h2 h3
    unfold emitIntent
    rw [if_neg (fun hc => hc h1), if_neg (Nat.not_lt.mpr h2), if_pos h3]
  · intro s now d signer s' h
    obtain ⟨-, -, hn, -, -, -, w, cb, -, hs⟩ := emitIntent_ok_shape h
    exact ⟨hn, by simp [hs]⟩
  · intro s now d signer e h
    simp [applyOp, applyOpE, h]
  · intro ops a
    rw [acceptedNonces_eq_range' ops initialSystemState a]
    have h0 : initialSystemState.agentNonces a = 0 := rfl
    rw [h0, Nat.sub_zero, List.range_eq_range']

/-- Witness for C1: a stale-nonce emission from the fresh deployment is
rejected with InvalidNonce; the successful emission of intent 5 advances
agent 1's nonce from 0 to 1; a run with two successful emissions accepts
exactly the nonces 0 and 1. -/
theorem C1_nonce_sequence_witness :
    emitIntent initialSystemState 0
      { intentId := 1, agentId := 1, srcChainId := 1, destChainId := 2
      , actionHash := "transfer", nonce := 5, expiry := 100, value := 0
      , recipient := 9 } 7 = .error .InvalidNonce ∧
    (intentD5.nonce = stateA.agentNonces intentD5.agentId ∧
      stateB.agentNonces intentD5.agentId =
        stateA.agentNonces intentD5.agentId + 1) ∧
    acceptedNonces initialSystemState
      [opRegAgent1, .emit 10 intentD5 7, .emit 20 intentD6 7] 1 =
      List.range 2 := by
  refine ⟨?_, ?_, ?_⟩
  · exact C1_nonce_sequence.1 initialSystemState 0 _ 7 rfl (by decide)
      (by decide)
  · exact C1_nonce_sequence.2.1 stateA 10 intentD5 7 stateB rfl
  · rw [C1_nonce_sequence.2.2.2
      [opRegAgent1, .emit 10 intentD5 7, .emit 20 intentD6 7] 1]
    rfl

/-- C2: a rejected `checkPolicy` transaction leaves the engine state — in
particular the agent's rolling window (dailySpent, dailyWindowStart,
hourlyTxCount, hourlyWindowStart) and the circuit breaker — exactly as it
was, for every one of the seven rejection reasons (system paused, agent
paused, breaker active, per-tx cap, daily cap, hourly cap, whitelist);
counters move only on an approved check. -/
theorem C2_rejection_no_mutation :
    ∀ (s : SystemState) (now agentId value recipient mD mH mT : Nat)
      (wl : List Nat) (e : EngineError),
      applyOpE s (Op.chkPolicy now agentId value recipient mD mH mT wl) =
        .error e →
      applyOp s (Op.chkPolicy now agentId value recipient mD mH mT wl) = s ∧
      (applyOp s
        (Op.chkPolicy now agentId value recipient mD mH mT wl)).rollingWindows
          agentId = s.rollingWindows agentId ∧
      (applyOp s
        (Op.chkPolicy now agentId value recipient mD mH mT wl)).circuitBreaker
          = s.circuitBreaker ∧
      (e = .SystemPaused ∨ e = .AgentIsPaused agentId ∨
        e = .CircuitBreakerActive ∨
        e = .PolicyViolation "Exceeds maxValuePerTx" ∨
        e = .PolicyViolation "Exceeds maxSpendPerDay" ∨
        e = .PolicyViolation "Exceeds maxTxPerHour" ∨
        e = .PolicyViolation "Recipient not whitelisted") := by
  intro s now agentId value recipient mD mH mT wl e h
  have happ : applyOp s
      (Op.chkPolicy now agentId value recipient mD mH mT wl) = s := by
    simp [applyOp, h]
  exact ⟨happ, by rw [happ], by rw [happ],
    checkPolicy_error_cases (checkPolicyCall_error h)⟩

/-- Witness for C2: with the system paused, a policy check for agent 1 is
rejected with SystemPaused and the state is byte-for-byte unchanged. -/
theorem C2_rejection_no_mutation_witness :
    applyOp { initialSystemState with paused := true }
      (Op.chkPolicy 0 1 1 2 10 10 10 []) =
      { initialSystemState with paused := true } ∧
    applyOpE { initialSystemState with paused := true }
      (Op.chkPolicy 0 1 1 2 10 10 10 []) = .error .SystemPaused :=
  ⟨(C2_rejection_no_mutation { initialSystemState with paused := true }
      0 1 1 2 10 10 10 [] .SystemPaused rfl).1, rfl⟩

/-- C3 (code bug): with maxTxPerHour = 3 and three approved checks on the
clock, the 4th check is rejected with PolicyViolation "Exceeds maxTxPerHour"
— but the `_checkCircuitBreaker` write inside `checkPolicy` is rolled back
by the very revert that reports the violation, so the breaker stays
untripped, a 5th check is rejected with the same PolicyViolation rather
than CircuitBreakerActive, and in fact no reachable state ever has a
tripped breaker, making `CircuitBreakerActive` unreachable. -/
theorem C3_circuit_breaker_never_trips :
    applyOpE statePol3 (chkOp 13) =
      .error (.PolicyViolation "Exceeds maxTxPerHour") ∧
    (applyOp statePol3 (chkOp 13)).circuitBreaker.tripped = false ∧
    applyOpE (applyOp statePol3 (chkOp 13)) (chkOp 14) =
      .error (.PolicyViolation "Exceeds maxTxPerHour") ∧
    applyOpE (applyOp statePol3 (chkOp 13)) (chkOp 14) ≠
      .error .CircuitBreakerActive ∧
    ∀ ops : List Op,
      (runOps initialSystemState ops).circuitBreaker.tripped = false := by
  have h3 : applyOpE (applyOp statePol3 (chkOp 13)) (chkOp 14) =
      .error (.PolicyViolation "Exceeds maxTxPerHour") := rfl
  refine ⟨rfl, rfl, h3, ?_, runOps_tripped_false⟩
  rw [h3]
  simp

/-- C4 counterexample: `disputeIntent` succeeds on an intent in Pending
status with an empty reason, refuting both the claimed
Submitted-or-Executed restriction and the non-empty-reason requirement. -/
theorem C4_dispute_counterexample :
    (stateB.intents 5).status = Status.Pending ∧
    disputeIntent stateB 99 5 "" =
      .ok { stateB with intents := Function.update stateB.intents 5 { stateB.intents 5 with status := Status.Disputed } } ∧
    ((applyOp stateB (Op.dispute 99 5 "")).intents 5).status =
      Status.Disputed :=
  ⟨rfl, rfl, rfl⟩

/-- C4 (amended): `disputeIntent` rejects IntentNotFound on an unknown
intent; on any existing intent it succeeds whatever the current status
(including Pending) and whatever the reason string (empty allowed), setting
the status to Disputed; and dispute calls are the only transactions that
move an intent into Disputed. -/
theorem C4_dispute_amended :
    (∀ (s : SystemState) (caller intentId : Nat) (reason : String),
        (s.intents intentId).intentId = 0 →
        disputeIntent s caller intentId reason = .error .IntentNotFound) ∧
    (∀ (s : SystemState) (caller intentId : Nat) (reason : String),
        (s.intents intentId).intentId ≠ 0 →
        disputeIntent s caller intentId reason =
          .ok { s with intents := Function.update s.intents intentId { s.intents intentId with status := Status.Disputed } }) ∧
    (∀ (s : SystemState) (op : Op) (id : Nat),
        ((applyOp s op).intents id).status = Status.Disputed →
        (s.intents id).status = Status.Disputed ∨
        ∃ caller reason, op = Op.dispute caller id reason) := by
  refine ⟨?_, ?_, applyOp_disputed_source⟩
  · intro s caller intentId reason h
    unfold disputeIntent
    rw [if_pos h]
  · intro s caller intentId reason h
    unfold disputeIntent
    rw [if_neg h]

/-- Witness for C4 (amended): disputing an unknown intent fails with
IntentNotFound, and disputing the Pending intent 5 with a nonempty reason
succeeds. -/
theorem C4_dispute_amended_witness :
    disputeIntent initialSystemState 99 5 "bad" = .error .IntentNotFound ∧
    disputeIntent stateB 99 5 "late" =
      .ok { stateB with intents := Function.update stateB.intents 5 { stateB.intents 5 with status := Status.Disputed } } :=
  ⟨C4_dispute_amended.1 initialSystemState 99 5 "bad" rfl,
    C4_dispute_amended.2.1 stateB 99 5 "late" (by decide)⟩

/-- C5 counterexample: intent 6 is Submitted at time 100 with a payload that
matches the committed action "mint", recipient and value; the execution at
exactly submittedAt + TIMELOCK still fails ("Unsupported action") instead of
succeeding as the claim states. -/
theorem C5_timelock_counterexample :
    (stateF.intents 6).status = Status.Submitted ∧
    (stateF.intents 6).submittedAt = 100 ∧
    (stateF.intents 6).actionHash = "mint" ∧
    (stateF.intents 6).recipient = 9 ∧
    (stateF.intents 6).value = 0 ∧
    executeIntent stateF 99 160 6 "mint" 9 0 =
      .error (.Require "Unsupported action") :=
  ⟨rfl, rfl, rfl, rfl, rfl, rfl⟩

/-- C5 (amended): for a Submitted intent with a matching payload,
`executeIntent` strictly before submittedAt + TIMELOCK (60 s) fails with
TimelockNotExpired; at submittedAt + TIMELOCK or later (boundary inclusive)
it succeeds and sets the status to Executed provided additionally the
committed action is "transfer" or "call" — other actions are rejected by
the dispatch even with a matching payload. -/
theorem C5_timelock_amended :
    ∀ (s : SystemState) (caller now intentId : Nat) (action : String)
      (target amount : Nat),
      (s.intents intentId).intentId ≠ 0 →
      (s.intents intentId).status = Status.Submitted →
      action = (s.intents intentId).actionHash →
      target = (s.intents intentId).recipient →
      amount = (s.intents intentId).value →
      (now < (s.intents intentId).submittedAt + TIMELOCK_DURATION →
        executeIntent s caller now intentId action target amount =
          .error .TimelockNotExpired) ∧
      ((s.intents intentId).submittedAt + TIMELOCK_DURATION ≤ now →
        (action = "transfer" ∨ action = "call") →
        executeIntent s caller now intentId action target amount =
          .ok { s with intents := Function.update s.intents intentId { s.intents intentId with status := Status.Executed } }) := by
  intro s caller now intentId action target amount h1 h2 h3 h4 h5
  constructor
  · intro ht
    unfold executeIntent
    rw [if_neg (fun hc => h1 hc), if_neg (by simp [h2]), if_pos ht]
  · intro ht hta
    unfold executeIntent
    rw [if_neg (fun hc => h1 hc), if_neg (by simp [h2]),
      if_neg (Nat.not_lt.mpr ht), if_neg (fun hc => hc h3),
      if_neg (fun hc => hc h4), if_neg (fun hc => hc h5), if_pos hta]

/-- Witness for C5 (amended): the Submitted transfer intent 5 (submitted at
100) fails at time 159 with TimelockNotExpired and succeeds at exactly 160,
moving to Executed. -/
theorem C5_timelock_amended_witness :
    executeIntent stateD 99 159 5 "transfer" 9 0 =
      .error .TimelockNotExpired ∧
    executeIntent stateD 99 160 5 "transfer" 9 0 =
      .ok { stateD with intents := Function.update stateD.intents 5 { stateD.intents 5 with status := Status.Executed } } :=
  ⟨(C5_timelock_amended stateD 99 159 5 "transfer" 9 0 (by decide) rfl rfl
      rfl rfl).1 (by decide),
    (C5_timelock_amended stateD 99 160 5 "transfer" 9 0 (by decide) rfl rfl
      rfl rfl).2 (by decide) (.inl rfl)⟩

/-- C6 counterexample: the duplicate-id guard tests the stored record's
intentId field against zero, so the zero intent id escapes it: after the
id-0 intent of agent 1 is emitted, a second emission with the same id 0
(and the advanced nonce) succeeds and overwrites the stored intent instead
of being rejected. -/
theorem C6_duplicate_counterexample :
    (applyOpE stateA (Op.emit 10 intentZ0 7)).isOk = true ∧
    (applyOpE stateZ1 (Op.emit 11 intentZ1 7)).isOk = true ∧
    (stateZ1.intents 0).nonce = 0 ∧
    (stateZ2.intents 0).nonce = 1 :=
  ⟨rfl, rfl, rfl, rfl⟩

/-- C6 (amended): for every intent id whose stored record carries a nonzero
intentId field — i.e. every previously emitted id other than the zero id —
a second `emitIntent` with that id is always rejected with
IntentAlreadyExists and the whole engine state is left unchanged; an intent
emitted under the zero id is not protected by this guard. -/
theorem C6_duplicate_amended :
    ∀ (s : SystemState) (now : Nat) (d : IntentData) (signer : Nat),
      (s.intents d.intentId).intentId ≠ 0 →
      emitIntent s now d signer = .error .IntentAlreadyExists ∧
      applyOp s (Op.emit now d signer) = s := by
  intro s now d signer h
  have he : emitIntent s now d signer = .error .IntentAlreadyExists := by
    unfold emitIntent
    rw [if_pos h]
  exact ⟨he, by simp [applyOp, applyOpE, he]⟩

/-- Witness for C6 (amended): re-emitting the already stored intent 5
rejects with IntentAlreadyExists and changes nothing. -/
theorem C6_duplicate_amended_witness :
    emitIntent stateB 30 intentD5 7 = .error .IntentAlreadyExists ∧
    applyOp stateB (Op.emit 30 intentD5 7) = stateB :=
  C6_duplicate_amended stateB 30 intentD5 7 (by decide)

/-- C7 counterexample: registering under the ZERO agent id records a
binding the reverse index cannot represent (`walletToAgentId[w] = 0` reads
as unbound), after which the same wallet 77 is successfully bound to a
second agent (id 9): two agent records share one signing wallet, so the
claimed injectivity and no-rebinding fail at the zero agent id. -/
theorem C7_binding_counterexample :
    (applyOpE initialSystemState opRegAgentZero).isOk = true ∧
    (applyOpE stateW1 opRegAgent9).isOk = true ∧
    (stateW2.agents 0).wallet = 77 ∧
    (stateW2.agents 9).wallet = 77 ∧
    stateW2.walletToAgentId 77 = 9 :=
  ⟨rfl, rfl, rfl, rfl, rfl⟩

/-- C7 (amended): restricted to nonzero agent ids the invariant holds in
every reachable state: two nonzero agents never share a (nonzero) signing
wallet; a bound wallet is never changed by any transaction; registration of
a taken agent id fails with AgentAlreadyExists, a zero wallet fails with
InvalidWalletAddress, and a wallet already present in the reverse index
fails with WalletAlreadyBound.  Registration under the zero agent id is the
one escape hatch (see the counterexample). -/
theorem C7_binding_amended :
    (∀ (ops : List Op) (a b : Nat), a ≠ 0 → b ≠ 0 →
        ((runOps initialSystemState ops).agents a).wallet ≠ 0 →
        ((runOps initialSystemState ops).agents a).wallet =
          ((runOps initialSystemState ops).agents b).wallet →
        a = b) ∧
    (∀ (s : SystemState) (op : Op) (a : Nat),
        (s.agents a).wallet ≠ 0 →
        ((applyOp s op).agents a).wallet = (s.agents a).wallet) ∧
    (∀ (s : SystemState) (c n agentId wallet : Nat) (pk cid : String)
        (pol : PolicyConfig),
        (s.agents agentId).wallet ≠ 0 →
        registerAgent s c n agentId wallet pk cid pol =
          .error .AgentAlreadyExists) ∧
    (∀ (s : SystemState) (c n agentId : Nat) (pk cid : String)
        (pol : PolicyConfig),
        (s.agents agentId).wallet = 0 →
        registerAgent s c n agentId 0 pk cid pol =
          .error .InvalidWalletAddress) ∧
    (∀ (s : SystemState) (c n agentId wallet : Nat) (pk cid : String)
        (pol : PolicyConfig),
        (s.agents agentId).wallet = 0 → wallet ≠ 0 →
        s.walletToAgentId wallet ≠ 0 →
        registerAgent s c n agentId wallet pk cid pol =
          .error .WalletAlreadyBound) := by
  refine ⟨?_, applyOp_wallet_stable, ?_, ?_, ?_⟩
  · intro ops a b ha hb hwa heq
    have hInv := runOps_RegInv ops
    have h1 := hInv a ha hwa
    have hwb : ((runOps initialSystemState ops).agents b).wallet ≠ 0 := by
      rw [← heq]
      exact hwa
    have h2 := hInv b hb hwb
    rw [heq] at h1
    exact h1.symm.trans h2
  · intro s c n agentId wallet pk cid pol h
    unfold registerAgent
    rw [if_pos h]
  · intro s c n agentId pk cid pol h
    unfold registerAgent
    rw [if_neg (fun hc => hc h), if_pos rfl]
  · intro s c n agentId wallet pk cid pol h hw hb
    unfold registerAgent
    rw [if_neg (fun hc => hc h), if_neg hw, if_pos hb]

/-- Witness for C7 (amended): from the one-agent state, registering agent 1
again fails AgentAlreadyExists, a zero wallet fails InvalidWalletAddress,
reusing wallet 7 fails WalletAlreadyBound, a later registry transaction
leaves agent 1's wallet untouched, and the reachable-state injectivity holds
at the one-emission run. -/
theorem C7_binding_amended_witness :
    registerAgent stateA 3 0 1 8 "p" "c" defaultPolicyConfig =
      .error .AgentAlreadyExists ∧
    registerAgent stateA 3 0 2 0 "p" "c" defaultPolicyConfig =
      .error .InvalidWalletAddress ∧
    registerAgent stateA 3 0 2 7 "p" "c" defaultPolicyConfig =
      .error .WalletAlreadyBound ∧
    ((applyOp stateA opRegAgent9).agents 1).wallet =
      (stateA.agents 1).wallet ∧
    1 = 1 :=
  ⟨C7_binding_amended.2.2.1 stateA 3 0 1 8 "p" "c" defaultPolicyConfig
      (by decide),
    C7_binding_amended.2.2.2.1 stateA 3 0 2 "p" "c" defaultPolicyConfig rfl,
    C7_binding_amended.2.2.2.2 stateA 3 0 2 7 "p" "c" defaultPolicyConfig
      rfl (by decide) (by decide),
    C7_binding_amended.2.1 stateA opRegAgent9 1 (by decide),
    C7_binding_amended.1 [opRegAgent1] 1 1 (by decide) (by decide)
      (by decide) rfl⟩

/-- C8 counterexample: the failure branch is a guarded decrement
(`if score > 10 then score -= 5`), not a clamp.  At reputation 10 a failure
leaves 10 (so 10 acts as the floor), yet a reachable reputation of 11
(18 failures then 1 success from the initial 100) drops to 6 on the next
failure — strictly below that floor — so the score does not stay within a
range floored at 10 and the failure step is not "minus 5 floored at the
lower bound". -/
theorem C8_reputation_counterexample :
    (stateRep10.relayerInfo 5).reputationScore = 10 ∧
    ((applyOp stateRep10 (Op.updRep 901 5 false 1)).relayerInfo 5).reputationScore = 10 ∧
    (stateRep11.relayerInfo 5).reputationScore = 11 ∧
    (stateRep12.relayerInfo 5).reputationScore = 6 :=
  ⟨rfl, rfl, rfl, rfl⟩

/-- C8 (amended): a successful update increments the processed and success
counters and raises the reputation by exactly 1 when it is below 200
(capped at 200); a failed update lowers the reputation by exactly 5 only
when it is above 10 and otherwise leaves it unchanged — a guarded
decrement, not a clamp, so the score can land as low as 6; both update the
last-active timestamp, and a score inside the interval from 6 to 200 stays
inside it. -/
theorem C8_reputation_amended :
    ∀ (s : SystemState) (caller relayer : Nat) (success : Bool) (now : Nat)
      (s' : SystemState),
      updateRelayerReputation s caller relayer success now = .ok s' →
      (s'.relayerInfo relayer).intentsProcessed =
        (s.relayerInfo relayer).intentsProcessed + 1 ∧
      (s'.relayerInfo relayer).lastActive = now ∧
      (success = true →
        (s'.relayerInfo relayer).successfulExecutions =
          (s.relayerInfo relayer).successfulExecutions + 1 ∧
        (s'.relayerInfo relayer).reputationScore =
          (if (s.relayerInfo relayer).reputationScore < 200 then
            (s.relayerInfo relayer).reputationScore + 1
           else (s.relayerInfo relayer).reputationScore)) ∧
      (success = false →
        (s'.relayerInfo relayer).successfulExecutions =
          (s.relayerInfo relayer).successfulExecutions ∧
        (s'.relayerInfo relayer).reputationScore =
          (if 10 < (s.relayerInfo relayer).reputationScore then
            (s.relayerInfo relayer).reputationScore - 5
           else (s.relayerInfo relayer).reputationScore)) ∧
      (6 ≤ (s.relayerInfo relayer).reputationScore →
        (s.relayerInfo relayer).reputationScore ≤ 200 →
        6 ≤ (s'.relayerInfo relayer).reputationScore ∧
        (s'.relayerInfo relayer).reputationScore ≤ 200) := by
  intro s caller relayer success now s' h
  obtain ⟨hact, hs⟩ := updateRelayerReputation_ok_shape h
  subst hs
  have hproj : ({ s with relayerInfo := Function.update s.relayerInfo relayer (updatedReputation (s.relayerInfo relayer) success now) } : SystemState).relayerInfo relayer = updatedReputation (s.relayerInfo relayer) success now :=
    Function.update_same relayer _ s.relayerInfo
  rw [hproj]
  have hspec := updatedReputation_spec (s.relayerInfo relayer) success now
  exact ⟨hspec.1, hspec.2.1, hspec.2.2.1, hspec.2.2.2,
    fun h6 h200 => updatedReputation_bounds _ success now h6 h200⟩

/-- Witness for C8 (amended) at the reachable reputation-11 state: the
failure update increments the processed count, stamps the time and applies
the guarded decrement (11 is above 10, so minus 5). -/
theorem C8_reputation_amended_witness :
    (stateRep12.relayerInfo 5).intentsProcessed =
      (stateRep11.relayerInfo 5).intentsProcessed + 1 ∧
    (stateRep12.relayerInfo 5).lastActive = 2 ∧
    (stateRep12.relayerInfo 5).reputationScore =
      (if 10 < (stateRep11.relayerInfo 5).reputationScore then
        (stateRep11.relayerInfo 5).reputationScore - 5
       else (stateRep11.relayerInfo 5).reputationScore) := by
  have h := C8_reputation_amended stateRep11 901 5 false 2 stateRep12 rfl
  exact ⟨h.1, h.2.1, (h.2.2.2.1 rfl).2⟩

/-- C9 counterexample: relayer 5 is active (reputation 95, one processed
intent, zero successes, so its success-rate scaling drives the score to 0),
yet `selectRelayer` fails with "No suitable relayer found" instead of
returning the relayer with the strictly highest score. -/
theorem C9_selection_counterexample :
    stateSel.activeRelayers = [5] ∧
    (stateSel.relayerInfo 5).isActive = true ∧
    selectRelayer stateSel 0 =
      .error (.Require "No suitable relayer found") :=
  ⟨rfl, rfl, rfl⟩

/-- C9 (amended): selection is deterministic — it depends only on the
relayer directory state; whenever some active listed relayer has a strictly
POSITIVE score (and address 0 is not in the list), the call returns an
active listed relayer whose score is maximal; and a head relayer with a
positive score at least as high as every other active relayer's is the one
returned (first encountered wins ties, and raising one relayer's score
above all others selects it).  When every score is 0 the call fails even
though active relayers exist (see the counterexample). -/
theorem C9_selection_amended :
    (∀ (s t : SystemState) (now : Nat),
        s.activeRelayers = t.activeRelayers →
        s.relayerInfo = t.relayerInfo →
        selectRelayer s now = selectRelayer t now) ∧
    (∀ (s : SystemState) (now r0 : Nat),
        r0 ∈ s.activeRelayers → (s.relayerInfo r0).isActive = true →
        0 < relayerScore now (s.relayerInfo r0) →
        (0 : Nat) ∉ s.activeRelayers →
        ∃ r, selectRelayer s now = .ok r ∧ r ∈ s.activeRelayers ∧
          (s.relayerInfo r).isActive = true ∧
          ∀ r2, r2 ∈ s.activeRelayers →
            (s.relayerInfo r2).isActive = true →
            relayerScore now (s.relayerInfo r2) ≤
              relayerScore now (s.relayerInfo r)) ∧
    (∀ (s : SystemState) (now r0 : Nat) (l : List Nat),
        s.activeRelayers = r0 :: l → (s.relayerInfo r0).isActive = true →
        0 < relayerScore now (s.relayerInfo r0) → r0 ≠ 0 →
        (∀ r2, r2 ∈ l → (s.relayerInfo r2).isActive = true →
          relayerScore now (s.relayerInfo r2) ≤
            relayerScore now (s.relayerInfo r0)) →
        selectRelayer s now = .ok r0) := by
  refine ⟨?_, ?_, ?_⟩
  · intro s t now h1 h2
    have hstep : selectStep s now = selectStep t now := by
      funext best r
      unfold selectStep
      rw [h2]
    unfold selectRelayer
    rw [h1, hstep]
  · intro s now r0 hr0 hact hpos h0
    have hlen : ¬ s.activeRelayers.length = 0 := by
      intro hl
      rw [List.length_eq_zero] at hl
      rw [hl] at hr0
      cases hr0
    rcases selectFold_shape s now s.activeRelayers (0, 0)
      with hsh | ⟨r, hr, hract, h1, h2⟩
    · exfalso
      have hle := selectFold_score_le s now s.activeRelayers (0, 0) r0 hr0 hact
      rw [hsh] at hle
      omega
    · have hrne : ¬ (s.activeRelayers.foldl (selectStep s now) (0, 0)).2 = 0 := by
        rw [h2]
        intro hcontra
        rw [hcontra] at hr
        exact h0 hr
      refine ⟨r, ?_, hr, hract, ?_⟩
      · unfold selectRelayer
        rw [if_neg hlen, if_neg hrne, h2]
      · intro r2 hr2 hact2
        have hle := selectFold_score_le s now s.activeRelayers (0, 0) r2 hr2 hact2
        rw [h1] at hle
        exact hle
  · intro s now r0 l hl hact hpos hr0ne hdom
    have hstep1 : selectStep s now (0, 0) r0 =
        (relayerScore now (s.relayerInfo r0), r0) := by
      unfold selectStep
      rw [if_pos hact, if_pos hpos]
    have hfold : s.activeRelayers.foldl (selectStep s now) (0, 0) =
        (relayerScore now (s.relayerInfo r0), r0) := by
      rw [hl]
      show l.foldl (selectStep s now) (selectStep s now (0, 0) r0) = _
      rw [hstep1]
      exact selectFold_no_improve s now l _ hdom
    unfold selectRelayer
    rw [if_neg (by rw [hl]; simp), if_neg (by rw [hfold]; exact hr0ne), hfold]

/-- Witness for C9 (amended): with the single freshly registered relayer 5
(score 110), selection deterministically returns relayer 5. -/
theorem C9_selection_amended_witness :
    selectRelayer stateSelGood 0 = .ok 5 ∧
    selectRelayer stateSelGood 0 = selectRelayer stateSelGood 0 :=
  ⟨C9_selection_amended.2.2 stateSelGood 0 5 [] rfl rfl (by decide)
      (by decide) (fun r2 hr2 _ => absurd hr2 (List.not_mem_nil r2)),
    C9_selection_amended.1 stateSelGood stateSelGood 0 rfl rfl⟩

/-- C10: in every reachable state, an intent whose committed actionHash is
not the hash of "transfer" and not the hash of "call" never has status
Executed: the dispatch in `executeIntent` rejects every other action even
when the payload matches the committed intent. -/
theorem C10_unsupported_never_executed :
    ∀ (ops : List Op) (id : Nat),
      ((runOps initialSystemState ops).intents id).actionHash ≠ "transfer" →
      ((runOps initialSystemState ops).intents id).actionHash ≠ "call" →
      ((runOps initialSystemState ops).intents id).status ≠ Status.Executed :=
  fun ops id => runOps_unsupported ops id

/-- Witness for C10: along a run that emits and submits the "mint" intent 6
and then attempts its execution with a fully matching payload at a time past
the timelock, intent 6 still is not Executed. -/
theorem C10_unsupported_never_executed_witness :
    ((runOps initialSystemState [opRegAgent1, Op.emit 10 intentD5 7,
        Op.authRel 902 4, Op.submit 4 100 5, Op.emit 20 intentD6 7,
        Op.submit 4 100 6, Op.exec 99 160 6 "mint" 9 0]).intents 6).status ≠
      Status.Executed :=
  C10_unsupported_never_executed [opRegAgent1, Op.emit 10 intentD5 7,
    Op.authRel 902 4, Op.submit 4 100 5, Op.emit 20 intentD6 7,
    Op.submit 4 100 6, Op.exec 99 160 6 "mint" 9 0] 6 (by decide) (by decide)
